import Mathlib

/- Verification of the storage and query core of `border_equeue_stats`.
   The Python sources under `border_equeue_stats/` are shallowly embedded:
   pandas frames become lists of row structures, datetimes become integer
   timestamps, floats become exact rationals, raised exceptions become
   `Except` errors. -/

namespace BorderEqueue

/-! ## Preliminaries: Python-style rounding and list helpers -/

/-- Python `round(q, 2)`: round to 2 decimal places with halves going to the
even neighbour (banker's rounding), modelled on exact rationals. -/
def pyRound2 (q : Rat) : Rat :=
  let x := q * 100
  let f : Int := ⌊x⌋
  let frac := x - (f : Rat)
  let r : Int :=
    if frac < 1/2 then f
    else if 1/2 < frac then f + 1
    else if f % 2 = 0 then f else f + 1
  (r : Rat) / 100

/-- Pandas `drop_duplicates(subset=key, keep='first')`, worker: `seen` holds
the keys of rows already kept. -/
def dropDupByAux {α κ : Type} [DecidableEq κ] (key : α → κ) (seen : List κ) :
    List α → List α
  | [] => []
  | a :: t =>
    if key a ∈ seen then dropDupByAux key seen t
    else a :: dropDupByAux key (key a :: seen) t

/-- Pandas `drop_duplicates(subset=key, keep='first')`: keep the first row of
each key group, preserving row order. -/
def dropDupBy {α κ : Type} [DecidableEq κ] (key : α → κ) (l : List α) : List α :=
  dropDupByAux key [] l

/-- Mean of a list of rationals (pandas `'mean'` reducer). -/
def ratMean (l : List Rat) : Rat := l.sum / (l.length : Rat)

instance {ε α : Type} [DecidableEq ε] [DecidableEq α] : DecidableEq (Except ε α) := fun
  | .error e, .error f =>
    if h : e = f then .isTrue (by rw [h])
    else .isFalse (by intro hh; cases hh; exact h rfl)
  | .error _, .ok _ => .isFalse (by intro h; cases h)
  | .ok _, .error _ => .isFalse (by intro h; cases h)
  | .ok a, .ok b =>
    if h : a = b then .isTrue (by rw [h])
    else .isFalse (by intro hh; cases hh; exact h rfl)

/-! ## Constants (`border_equeue_stats/constants.py`) -/

/-- `INFO_KEY`: the dataset name of the checkpoint-info metadata. -/
def INFO_KEY : String := "info"

/-- `ALL_EQUEUE_KEYS`: the info dataset name plus the nine queue categories. -/
def ALL_EQUEUE_KEYS : List String :=
  ["info", "truckLiveQueue", "truckPriority", "truckGpk", "busLiveQueue",
   "busPriority", "carLiveQueue", "carPriority", "motorcycleLiveQueue",
   "motorcyclePriority"]

/-! ## Queue-name validation (`queue_stats.py`, lines 14-44)

Claim C1. -/

/-- `check_single_queue_name`: the Python `return` statement ends in
`, f'incorrect queue name - ...'`, so the function returns a pair
`(membership test, message)`, not the plain boolean its docstring promises. -/
def check_single_queue_name (q : String) : Bool × String :=
  (decide (q ∈ ALL_EQUEUE_KEYS ∧ q ≠ INFO_KEY), "incorrect queue name - " ++ q)

/-- Python truthiness of a 2-tuple: `bool((x, y))` is `len((x, y)) > 0`, hence
always true. `all(check_single_queue_name(q) for q in queues_names)` evaluates
exactly this truthiness. -/
def pyTruthyPair {α β : Type} (_p : α × β) : Bool := true

/-- Python `x is True` when `x` is a tuple: a tuple is never the object
`True`, so the test is always false. -/
def pyIsTruePair {α β : Type} (_p : α × β) : Bool := false

/-- `check_queue_names`: asserts the list is non-empty, duplicate-free
(`len(set(..)) == len(..)`), and that every name is truthy under
`check_single_queue_name` — the last test being the truthiness of a pair.
`Except.error` models the raised `AssertionError`. -/
def check_queue_names (qs : List String) : Except String Unit :=
  if (decide (0 < qs.length) && decide (qs.dedup.length = qs.length) &&
      qs.all fun q => pyTruthyPair (check_single_queue_name q)) then
    Except.ok ()
  else Except.error ("incorrect queue names")

/-- The guard `assert check_single_queue_name(queue_name) is True` opening
`get_single_vehicle_registrations_count` (`queue_stats.py`, line 353). -/
def single_vehicle_registrations_guard (q : String) : Except String Unit :=
  if pyIsTruePair (check_single_queue_name q) then Except.ok ()
  else Except.error ("incorrect queue_name - " ++ q)

/-- C1: queue-name validation does not behave as specified.
`check_single_queue_name` returns a pair, which is always truthy, so
`check_queue_names` accepts the unknown name "bogus" and the excluded "info"
dataset name; dually, `... is True` is always false for a pair, so the guard
of `get_single_vehicle_registrations_count` rejects even the valid category
"carLiveQueue". Only the non-empty and no-duplicate checks act as specified. -/
theorem C1_queue_name_validation_code_bug :
    check_queue_names ["bogus"] = Except.ok () ∧
    check_queue_names ["info"] = Except.ok () ∧
    (single_vehicle_registrations_guard ("carLiveQueue")).isOk = false ∧
    check_queue_names [] = Except.error ("incorrect queue names") ∧
    check_queue_names ["carLiveQueue", "carLiveQueue"]
      = Except.error ("incorrect queue names") := by
  decide

/-! ## Checkpoint-info dedup (`data_storage_utils.py` lines 26-39,
`parquet_storage.py` lines 201-230)

Claim C2. -/

/-- Raw checkpoint-info record of one snapshot
(`equeue_snapshot_dict['info']`): the six descriptive fields. -/
structure InfoInput where
  id : String
  nameEn : String
  address : String
  phone : String
  isBts : Int
  name : String
deriving DecidableEq, Repr

/-- Load timestamp with its derived partition keys (`load_dt.year`,
`load_dt.month`, and the timestamp itself). -/
structure LoadStamp where
  year : Int
  month : Int
  dt : Int
deriving DecidableEq, Repr

/-- The string built by `'_'.join(map(str, [id, nameEn, address, phone,
isBts, name]))` inside `convert_equeue_info_to_pandas`: only descriptive
fields, load timestamps excluded. -/
def infoJoined (i : InfoInput) : String :=
  i.id ++ "_" ++ i.nameEn ++ "_" ++ i.address ++ "_" ++ i.phone ++ "_"
    ++ toString i.isBts ++ "_" ++ i.name

/-- One stored info row, as produced by `convert_equeue_info_to_pandas`. -/
structure InfoRow where
  year : Int
  month : Int
  load_dt : Int
  id : String
  nameEn : String
  address : String
  phone : String
  isBts : Int
  nameRu : String
  hash : Int
deriving DecidableEq, Repr

/-- `convert_equeue_info_to_pandas`: build the stored row; the hash column is
Python's `hash` of the joined descriptive fields. `pyHash` abstracts Python's
(deterministic within a process) string hash. -/
def convert_equeue_info_to_pandas (pyHash : String → Int) (i : InfoInput)
    (load : LoadStamp) : InfoRow :=
  { year := load.year, month := load.month, load_dt := load.dt,
    id := i.id, nameEn := i.nameEn, address := i.address, phone := i.phone,
    isBts := i.isBts, nameRu := i.name, hash := pyHash (infoJoined i) }

/-- `is_info_stored`: read the info dataset filtered on the hash column and
test whether any row matched. -/
def is_info_stored (h : Int) (store : List InfoRow) : Bool :=
  0 < (store.filter fun r => r.hash == h).length

/-- `dump_to_parquet.dump_info` for a single info row: append the row to the
info dataset only when its hash is not stored yet. -/
def dump_info (row : InfoRow) (store : List InfoRow) : List InfoRow :=
  if is_info_stored row.hash store then store else store ++ [row]

/-- Repeated ingestion: run `dump_info` once per snapshot load timestamp,
always with the same descriptive content `i`. -/
def append_info_iter (pyHash : String → Int) (i : InfoInput)
    (store : List InfoRow) (loads : List LoadStamp) : List InfoRow :=
  loads.foldl
    (fun s ld => dump_info (convert_equeue_info_to_pandas pyHash i ld) s) store

/-- Once the content hash is stored, further dumps of the same content leave
the dataset unchanged. -/
theorem append_info_iter_fixed (pyHash : String → Int) (i : InfoInput)
    (store : List InfoRow) (loads : List LoadStamp)
    (h : is_info_stored (pyHash (infoJoined i)) store = true) :
    append_info_iter pyHash i store loads = store := by
  induction loads with
  | nil => rfl
  | cons a t ih =>
    have hrow : dump_info (convert_equeue_info_to_pandas pyHash i a) store
        = store := by
      unfold dump_info
      simp [convert_equeue_info_to_pandas, h]
    simpa [append_info_iter, hrow] using ih

/-- C2: appending the same checkpoint-info content `N ≥ 1` times (possibly
under different load timestamps) to an empty info dataset stores exactly one
row: the one built from some (in fact the first) load timestamp. Repeated
calls with identical content never grow the dataset. -/
theorem C2_append_info_idempotent_dedup (pyHash : String → Int) (i : InfoInput)
    (loads : List LoadStamp) (h : loads ≠ []) :
    ∃ ld ∈ loads,
      append_info_iter pyHash i [] loads
        = [convert_equeue_info_to_pandas pyHash i ld] := by
  match loads, h with
  | a :: t, _ =>
    refine ⟨a, List.mem_cons_self a t, ?_⟩
    have h1 : dump_info (convert_equeue_info_to_pandas pyHash i a) [] =
        [convert_equeue_info_to_pandas pyHash i a] := by
      unfold dump_info is_info_stored
      simp
    have h2 : is_info_stored (pyHash (infoJoined i))
        [convert_equeue_info_to_pandas pyHash i a] = true := by
      unfold is_info_stored
      simp [convert_equeue_info_to_pandas]
    calc append_info_iter pyHash i [] (a :: t)
        = append_info_iter pyHash i
            [convert_equeue_info_to_pandas pyHash i a] t := by
          simp [append_info_iter, h1]
      _ = [convert_equeue_info_to_pandas pyHash i a] :=
          append_info_iter_fixed pyHash i _ t h2

/-- C2 witness: two ingestions of identical content at different load
timestamps leave exactly one stored row. -/
theorem C2_append_info_idempotent_dedup_witness :
    ∃ ld ∈ [(⟨2024, 9, 100⟩ : LoadStamp), ⟨2024, 10, 200⟩],
      append_info_iter (fun s => (s.length : Int))
          ⟨"a9173a85", "Brest BTS", "Varshavskoe 1", "+375", 1, "Brest"⟩
          [] [⟨2024, 9, 100⟩, ⟨2024, 10, 200⟩]
        = [convert_equeue_info_to_pandas (fun s => (s.length : Int))
            ⟨"a9173a85", "Brest BTS", "Varshavskoe 1", "+375", 1, "Brest"⟩ ld] :=
  C2_append_info_idempotent_dedup (fun s => (s.length : Int))
    ⟨"a9173a85", "Brest BTS", "Varshavskoe 1", "+375", 1, "Brest"⟩
    [⟨2024, 9, 100⟩, ⟨2024, 10, 200⟩] (by decide)

/-! ## Queue-entry rows and the partitioned store layout -/

/-- One stored queue-entry observation row (`convert_equeue_entity_to_pandas`):
partition keys, load timestamp, plate, status code, position (`float64` with
`NaN` once called/canceled, hence `Option`), queue-type code, registration and
last-changed timestamps. Timestamps are integer ticks. -/
structure EntryRow where
  year : Int
  month : Int
  load_dt : Int
  car_number : String
  status : Int
  queue_pos : Option Rat
  queue_type : Int
  reg_date : Int
  changed_date : Int
deriving DecidableEq, Repr

/-- Partition key of a row: its `(year, month)` column pair. -/
def rowKey (r : EntryRow) : Int × Int := (r.year, r.month)

/-- One parquet file: the `(year, month)` partition directory holding it and
its rows. -/
structure PFile where
  partition : Int × Int
  rows : List EntryRow
deriving DecidableEq, Repr

/-- `dataset.read()` over a whole dataset: concatenation of all files. -/
def datasetRows (files : List PFile) : List EntryRow :=
  files.flatMap fun f => f.rows

/-! ## Compaction (`parquet_storage.py`, lines 256-289)

Claim C3. -/

/-- `has_many_files` inside `coalesce_parquet_data`: true iff two files of the
dataset live in the same partition directory. -/
def has_many_files (files : List PFile) : Bool :=
  decide (¬ (files.map fun f => f.partition).Nodup)

/-- `pq.write_to_dataset(table, partition_cols=('year', 'month'))` on a full
dataset read: split the rows by their `(year, month)` columns and write one
new file per occurring partition. -/
def write_to_dataset (rows : List EntryRow) : List PFile :=
  (rows.map rowKey).dedup.map fun k =>
    ⟨k, rows.filter fun r => decide (rowKey r = k)⟩

/-- `coalesce_parquet_data` restricted to one dataset: a dataset whose
partitions each hold one file is moved to the staging directory unchanged;
otherwise its full content is re-read and re-written as one file per
partition; the staging directory then atomically replaces the original. -/
def coalesce_parquet_data (files : List PFile) : List PFile :=
  if has_many_files files then write_to_dataset (datasetRows files) else files

/-- Summing a map that is `c` at one element of a duplicate-free list and `0`
elsewhere gives `c`. -/
theorem sum_map_ite_single {κ : Type} [DecidableEq κ] (x : κ) (c : Nat) :
    ∀ ks : List κ, ks.Nodup → x ∈ ks →
      (ks.map fun k => if x = k then c else 0).sum = c := by
  intro ks
  induction ks with
  | nil => intro _ h; cases h
  | cons k t ih =>
    intro hnd hmem
    rcases List.nodup_cons.1 hnd with ⟨hk, hnt⟩
    by_cases hx : x = k
    · subst hx
      have hzero : (t.map fun k' => if x = k' then c else 0).sum = 0 := by
        apply List.sum_eq_zero
        intro y hy
        rcases List.mem_map.1 hy with ⟨k', hk', rfl⟩
        rw [if_neg]
        intro he
        exact hk (he ▸ hk')
      simp [hzero]
    · have hmem' : x ∈ t := by
        rcases List.mem_cons.1 hmem with h | h
        · exact absurd h hx
        · exact h
      simp [if_neg hx, ih hnt hmem']

/-- Regrouping a list by its key function — concatenating, over the distinct
keys, the rows carrying each key — permutes the list. -/
theorem flatMap_filter_dedup_perm {α κ : Type} [DecidableEq α] [DecidableEq κ]
    (key : α → κ) (l : List α) :
    ((l.map key).dedup.flatMap fun k =>
        l.filter fun a => decide (key a = k)).Perm l := by
  rw [List.perm_iff_count]
  intro a
  have hcnt : ∀ k : κ, (l.filter fun x => decide (key x = k)).count a
      = if key a = k then l.count a else 0 := by
    intro k
    by_cases h : key a = k
    · rw [if_pos h]
      exact List.count_filter (by simp [h])
    · rw [if_neg h]
      refine List.count_eq_zero.2 ?_
      intro hmem
      exact h (by simpa using (List.mem_filter.1 hmem).2)
  rw [List.flatMap_def, List.count_flatten, List.map_map]
  have hmap : (List.map (List.count a ∘ fun k =>
      l.filter fun x => decide (key x = k)) (l.map key).dedup)
      = (l.map key).dedup.map fun k => if key a = k then l.count a else 0 := by
    apply List.map_congr_left
    intro k _
    exact hcnt k
  rw [hmap]
  by_cases hal : a ∈ l
  · exact sum_map_ite_single (key a) (l.count a) _ (List.nodup_dedup _)
      (List.mem_dedup.2 (List.mem_map_of_mem key hal))
  · rw [List.count_eq_zero_of_not_mem hal]
    apply List.sum_eq_zero
    intro y hy
    rcases List.mem_map.1 hy with ⟨k, _, rfl⟩
    simp

/-- C3: compaction preserves content and reduces file count: the full-dataset
read after `coalesce_parquet_data` is a permutation (hence set-equal) of the
read before it; afterwards every partition holds exactly one file (the
partition directories are pairwise distinct); and a dataset whose partitions
each already hold exactly one file is left identical. -/
theorem C3_coalesce_preserves_content (files : List PFile) :
    (datasetRows (coalesce_parquet_data files)).Perm (datasetRows files) ∧
    ((coalesce_parquet_data files).map fun f => f.partition).Nodup ∧
    ((files.map fun f => f.partition).Nodup →
      coalesce_parquet_data files = files) := by
  by_cases h : has_many_files files = true
  · have hco : coalesce_parquet_data files
        = write_to_dataset (datasetRows files) := by
      simp [coalesce_parquet_data, h]
    refine ⟨?_, ?_, ?_⟩
    · rw [hco]
      have : datasetRows (write_to_dataset (datasetRows files))
          = ((datasetRows files).map rowKey).dedup.flatMap fun k =>
              (datasetRows files).filter fun r => decide (rowKey r = k) := by
        simp [datasetRows, write_to_dataset, List.flatMap_map]
      rw [this]
      exact flatMap_filter_dedup_perm rowKey (datasetRows files)
    · rw [hco]
      have : (write_to_dataset (datasetRows files)).map (fun f => f.partition)
          = ((datasetRows files).map rowKey).dedup := by
        simp [write_to_dataset, List.map_map, Function.comp_def]
      rw [this]
      exact List.nodup_dedup _
    · intro hnd
      exact absurd (by simpa [has_many_files] using h) (by simpa using hnd)
  · have hco : coalesce_parquet_data files = files := by
      simp [coalesce_parquet_data, h]
    have hnd : (files.map fun f => f.partition).Nodup := by
      by_contra hc
      exact h (by simpa [has_many_files] using hc)
    exact ⟨by rw [hco], by rw [hco]; exact hnd, fun _ => hco⟩

/-- C3 witness: a two-file single-partition dataset is compacted into one file
holding both rows (content preserved), and a dataset already holding one file
per partition is returned unchanged. -/
theorem C3_coalesce_preserves_content_witness :
    (datasetRows (coalesce_parquet_data
        [⟨(2024, 9), [⟨2024, 9, 100, "1234AB5", 2, some 1, 3, 50, 50⟩]⟩,
         ⟨(2024, 9), [⟨2024, 9, 200, "5678CD5", 2, some 1, 3, 60, 60⟩]⟩])).Perm
      (datasetRows
        [⟨(2024, 9), [⟨2024, 9, 100, "1234AB5", 2, some 1, 3, 50, 50⟩]⟩,
         ⟨(2024, 9), [⟨2024, 9, 200, "5678CD5", 2, some 1, 3, 60, 60⟩]⟩]) ∧
    coalesce_parquet_data
        [⟨(2024, 9), [⟨2024, 9, 100, "1234AB5", 2, some 1, 3, 50, 50⟩]⟩,
         ⟨(2024, 10), [⟨2024, 10, 200, "5678CD5", 2, some 1, 3, 60, 60⟩]⟩]
      = [⟨(2024, 9), [⟨2024, 9, 100, "1234AB5", 2, some 1, 3, 50, 50⟩]⟩,
         ⟨(2024, 10), [⟨2024, 10, 200, "5678CD5", 2, some 1, 3, 60, 60⟩]⟩] :=
  ⟨(C3_coalesce_preserves_content _).1,
   (C3_coalesce_preserves_content _).2.2 (by decide)⟩

/-! ## Head waiting time (`queue_stats.py`, lines 47-138)

Claim C4. The `floor_value=None` path is embedded (no aggregation layer). -/

/-- The `relative_time` mode flag of `get_waiting_time`: registration time or
load (observation) time as the x-axis. -/
inductive RelMode
  | reg
  | load
deriving DecidableEq, Repr

/-- Time axis of a row per the mode flag. -/
def relTimeOf (m : RelMode) (r : EntryRow) : Int :=
  match m with
  | .load => r.load_dt
  | .reg => r.reg_date

/-- One output row of `get_waiting_time`. -/
structure WaitRow where
  relative_time : Int
  hours_waited : Rat
  first_vehicle_number : String
  queue_name : String
deriving DecidableEq, Repr

/-- Output order of `get_waiting_time`: `sort_values('relative_time')`. -/
def waitRowLe (a b : WaitRow) : Prop := a.relative_time ≤ b.relative_time

instance : DecidableRel waitRowLe := fun a b => by
  unfold waitRowLe; infer_instance

instance : IsTotal WaitRow waitRowLe :=
  ⟨fun a b => le_total a.relative_time b.relative_time⟩

instance : IsTrans WaitRow waitRowLe :=
  ⟨fun _ _ _ hab hbc => le_trans hab hbc⟩

/-- The output row `get_waiting_time.read_queue` derives from one stored
position-1 row: waited hours are `(load_dt - reg_date).total_seconds()/3600`
rounded to 2 decimals, and the row is tagged with its category name. -/
def mkWaitRow (m : RelMode) (qname : String) (r : EntryRow) : WaitRow :=
  { relative_time := relTimeOf m r,
    hours_waited := pyRound2 (((r.load_dt - r.reg_date : Int) : Rat) / 3600),
    first_vehicle_number := r.car_number,
    queue_name := qname }

/-- `get_waiting_time.read_queue` for one category (`floor_value=None`): read
the rows passing the pushed-down filter `queue_pos == 1`, derive the waited
hours and the tag, and sort by the time axis. -/
def get_waiting_time_queue (m : RelMode) (qname : String)
    (rows : List EntryRow) : List WaitRow :=
  ((rows.filter fun r => decide (r.queue_pos = some 1)).map
      (mkWaitRow m qname)).insertionSort waitRowLe

/-- `get_waiting_time` (`floor_value=None`): validate the category names, then
concatenate (`pd.concat`) the per-category frames in argument order. -/
def get_waiting_time (m : RelMode) (store : String → List EntryRow)
    (qnames : List String) : Except String (List WaitRow) :=
  match check_queue_names qnames with
  | .error e => .error e
  | .ok () => .ok (qnames.flatMap fun q => get_waiting_time_queue m q (store q))

/-- The store backing the spec's end-to-end head-waiting-time scenario: one
vehicle at position 1 in "carLiveQueue", registered at tick 0, observed at
ticks 3600 and 4200 (two snapshots 10 minutes apart, the first one hour after
registration). -/
def c4Store : String → List EntryRow := fun q =>
  if q = "carLiveQueue" then
    [⟨2024, 9, 3600, "1234AB5", 2, some 1, 3, 0, 0⟩,
     ⟨2024, 9, 4200, "1234AB5", 2, some 1, 3, 0, 0⟩]
  else []

/-- A two-category store whose bus observation is later than its car one. -/
def c4StoreTwo : String → List EntryRow := fun q =>
  if q = "busLiveQueue" then [⟨2024, 9, 9000, "AM20354", 2, some 1, 3, 0, 0⟩]
  else if q = "carLiveQueue" then
    [⟨2024, 9, 100, "1234AB5", 2, some 1, 3, 0, 0⟩]
  else []

/-- C4 counterexample: two snapshots of the same position-1 vehicle, loaded
3600 s and 4200 s (10 minutes later) after its registration, yield rounded
`hours_waited` values `1` and `1.17`, whose difference `0.17` is not `10/60`;
and with two categories the concatenated output is not globally sorted by the
time axis (each category block is sorted separately). -/
theorem C4_head_waiting_time_counterexample :
    get_waiting_time RelMode.load c4Store ["carLiveQueue"]
      = Except.ok
          [⟨3600, 1, "1234AB5", "carLiveQueue"⟩,
           ⟨4200, 117/100, "1234AB5", "carLiveQueue"⟩] ∧
    ¬ ((117 : Rat)/100 - 1 = 10/60) ∧
    get_waiting_time RelMode.load c4StoreTwo ["busLiveQueue", "carLiveQueue"]
      = Except.ok
          [⟨9000, 5/2, "AM20354", "busLiveQueue"⟩,
           ⟨100, 3/100, "1234AB5", "carLiveQueue"⟩] ∧
    ¬ List.Sorted waitRowLe
        [⟨9000, 5/2, "AM20354", "busLiveQueue"⟩,
         ⟨100, 3/100, "1234AB5", "carLiveQueue"⟩] := by
  have hc1 : check_queue_names ["carLiveQueue"] = Except.ok () := by decide
  have hc2 : check_queue_names ["busLiveQueue", "carLiveQueue"]
      = Except.ok () := by decide
  refine ⟨?_, by norm_num, ?_, ?_⟩
  · simp only [get_waiting_time, hc1]
    norm_num [c4Store, get_waiting_time_queue, mkWaitRow, relTimeOf,
      List.insertionSort, List.orderedInsert, waitRowLe, pyRound2]
  · simp only [get_waiting_time, hc2]
    norm_num [c4StoreTwo, get_waiting_time_queue, mkWaitRow, relTimeOf,
      List.insertionSort, List.orderedInsert, waitRowLe, pyRound2]
  · intro hs
    rw [List.sorted_cons] at hs
    have := hs.1 _ (List.mem_singleton.2 rfl)
    norm_num [waitRowLe] at this

/-- C4 amended: on success the head-waiting-time output is the concatenation,
in argument order, of one block per requested category; each block is sorted
by the time axis, every block row is tagged with its category and is derived
from a stored row with queue position 1 — `hours_waited` being the
observation-minus-registration interval in hours rounded to 2 decimals and
the time axis chosen by the mode flag — and conversely every stored
position-1 row contributes its derived row to the block. -/
theorem C4_head_waiting_time_amended (m : RelMode)
    (store : String → List EntryRow) (qnames : List String)
    (out : List WaitRow)
    (h : get_waiting_time m store qnames = Except.ok out) :
    out = (qnames.flatMap fun q => get_waiting_time_queue m q (store q)) ∧
    ∀ q ∈ qnames,
      List.Sorted waitRowLe (get_waiting_time_queue m q (store q)) ∧
      (∀ w ∈ get_waiting_time_queue m q (store q),
        w.queue_name = q ∧
        ∃ r ∈ store q, r.queue_pos = some 1 ∧ w = mkWaitRow m q r) ∧
      (∀ r ∈ store q, r.queue_pos = some 1 →
        mkWaitRow m q r ∈ get_waiting_time_queue m q (store q)) := by
  constructor
  · cases hc : check_queue_names qnames with
    | error e => rw [get_waiting_time, hc] at h; cases h
    | ok u =>
      rw [get_waiting_time, hc] at h
      exact (Except.ok.inj h).symm
  · intro q _
    refine ⟨List.sorted_insertionSort waitRowLe _, ?_, ?_⟩
    · intro w hw
      rw [get_waiting_time_queue, List.mem_insertionSort] at hw
      rcases List.mem_map.1 hw with ⟨r, hr, rfl⟩
      rcases List.mem_filter.1 hr with ⟨hrs, hpos⟩
      exact ⟨rfl, r, hrs, of_decide_eq_true hpos, rfl⟩
    · intro r hr hpos
      rw [get_waiting_time_queue, List.mem_insertionSort]
      exact List.mem_map_of_mem _
        (List.mem_filter.2 ⟨hr, decide_eq_true hpos⟩)

/-- C4 amended witness: the two-snapshot scenario of the spec, evaluated. -/
theorem C4_head_waiting_time_amended_witness :
    ([⟨3600, 1, "1234AB5", "carLiveQueue"⟩,
      ⟨4200, 117/100, "1234AB5", "carLiveQueue"⟩] : List WaitRow)
      = (["carLiveQueue"].flatMap fun q =>
          get_waiting_time_queue RelMode.load q (c4Store q)) ∧
    ∀ q ∈ ["carLiveQueue"],
      List.Sorted waitRowLe
        (get_waiting_time_queue RelMode.load q (c4Store q)) ∧
      (∀ w ∈ get_waiting_time_queue RelMode.load q (c4Store q),
        w.queue_name = q ∧
        ∃ r ∈ c4Store q,
          r.queue_pos = some 1 ∧ w = mkWaitRow RelMode.load q r) ∧
      (∀ r ∈ c4Store q, r.queue_pos = some 1 →
        mkWaitRow RelMode.load q r
          ∈ get_waiting_time_queue RelMode.load q (c4Store q)) := by
  have h : get_waiting_time RelMode.load c4Store ["carLiveQueue"]
      = Except.ok
          [⟨3600, 1, "1234AB5", "carLiveQueue"⟩,
           ⟨4200, 117/100, "1234AB5", "carLiveQueue"⟩] := by
    have hc1 : check_queue_names ["carLiveQueue"] = Except.ok () := by decide
    simp only [get_waiting_time, hc1]
    norm_num [c4Store, get_waiting_time_queue, mkWaitRow, relTimeOf,
      List.insertionSort, List.orderedInsert, waitRowLe, pyRound2]
  exact C4_head_waiting_time_amended RelMode.load c4Store ["carLiveQueue"] _ h

/-! ## Regional breakdown (`queue_stats.py` lines 228-327, `constants.py`
lines 15-25)

Claim C5. -/

/-- The compiled regex `BELARUS_CAR_NUMBER_FORMAT`, pattern
`^(\d){4}[A-Z]{2}(\d){1}$`: exactly 4 digits, 2 uppercase ASCII letters, and
1 digit (`\d` restricted to ASCII digits here). -/
def belarusPlateMatch (s : String) : Bool :=
  match s.toList with
  | [a, b, c, d, e, f, g] =>
    a.isDigit && b.isDigit && c.isDigit && d.isDigit &&
      decide ('A' ≤ e ∧ e ≤ 'Z') && decide ('A' ≤ f ∧ f ≤ 'Z') && g.isDigit
  | _ => false

/-- The lambda `cn[-1] if BELARUS_CAR_NUMBER_FORMAT.match(cn) else None`
computing the `region` column. -/
def plateRegionChar (s : String) : Option Char :=
  if belarusPlateMatch s then s.toList.getLast? else none

/-- `BELARUS_REGIONS_MAP` from `constants.py`. -/
def BELARUS_REGIONS_MAP : List (Char × String) :=
  [('1', "Brest Region"), ('2', "Vitebsk Region"), ('3', "Gomel Region"),
   ('4', "Grodno Region"), ('5', "Minsk Region"), ('6', "Mogilev Region"),
   ('7', "Minsk City"), ('8', "Minsk City")]

/-- `BELARUS_REGIONS_MAP.get(r, 'other')`. -/
def regionMapGet (c : Char) : String :=
  match BELARUS_REGIONS_MAP.find? fun p => decide (p.1 = c) with
  | some p => p.2
  | none => ("other")

/-- Working row of `get_count_by_regions` after column projection and the
region-extraction `apply`. -/
structure RegWork where
  load_dt : Int
  car_number : String
  region : Option Char
deriving DecidableEq, Repr

/-- A pandas cell that is either an integer count or a string: the
`vehicle_count` column of `get_count_by_regions` holds a row count on the
no-aggregation path but a string (a `'sum'` of plates) on the floored path. -/
inductive PdCell
  | int (n : Nat)
  | str (s : String)
deriving DecidableEq, Repr

/-- One output row of `get_count_by_regions`. -/
structure RegionRow where
  relative_time : Int
  vehicle_count : PdCell
  region : String
deriving DecidableEq, Repr

/-- Lexicographic order on the `(load_dt, region)` group keys (pandas sorts
group keys). -/
def icLe (a b : Int × Char) : Prop := a.1 < b.1 ∨ (a.1 = b.1 ∧ a.2 ≤ b.2)

instance : DecidableRel icLe := fun a b => by
  unfold icLe; infer_instance

/-- Row order by `load_dt` (used by `sort_values` inside the aggregation). -/
def regWorkLe (a b : RegWork) : Prop := a.load_dt ≤ b.load_dt

instance : DecidableRel regWorkLe := fun a b => by
  unfold regWorkLe; infer_instance

/-- Output order of `get_count_by_regions`: `sort_values('relative_time')`. -/
def regionRowLe (a b : RegionRow) : Prop := a.relative_time ≤ b.relative_time

instance : DecidableRel regionRowLe := fun a b => by
  unfold regionRowLe; infer_instance

/-- `groupby([LOAD_DATE_COLUMN, 'region'])` on the working frame: pandas
drops rows whose group key holds a missing value, so rows with `region =
None` (plates not matching the fixed pattern) are silently discarded; the
surviving `(load_dt, region)` keys are sorted and each is paired with its
rows. -/
def regionGroups (l : List RegWork) : List ((Int × Char) × List RegWork) :=
  ((l.filterMap fun r =>
      r.region.map fun c => (r.load_dt, c)).dedup.insertionSort icLe).map
    fun k => (k, l.filter fun r =>
      decide (r.load_dt = k.1 ∧ r.region = some k.2))

/-- `get_count_by_regions` with `floor_value=None`: filter to in-queue rows,
derive the region character, group by `(load time, region)` counting rows,
map the region through `BELARUS_REGIONS_MAP.get(r, 'other')` and sort. -/
def get_count_by_regions_nofloor (rows : List EntryRow) : List RegionRow :=
  let work := (rows.filter fun r => r.queue_pos.isSome).map fun r =>
    ⟨r.load_dt, r.car_number, plateRegionChar r.car_number⟩
  ((regionGroups work).map fun kg =>
    (⟨kg.1.1, PdCell.int kg.2.length, regionMapGet kg.1.2⟩ : RegionRow)
  ).insertionSort regionRowLe

/-- `get_count_by_regions` with a `floor_value` and the default
`aggregation_method='sum'`: dedup on `(load time, plate)`, then
`apply_datetime_aggregation(..., 'drop', group_columns=['region'])` — sort by
load time, floor it, keep the first row per `(floored time, region)` — then
`groupby([load time, region]).aggregate({car_number: 'sum'})`, which on the
string plate column concatenates, then region-map and sort. -/
def get_count_by_regions_floor (floorF : Int → Int) (rows : List EntryRow) :
    List RegionRow :=
  let work := (rows.filter fun r => r.queue_pos.isSome).map fun r =>
    (⟨r.load_dt, r.car_number, plateRegionChar r.car_number⟩ : RegWork)
  let work := dropDupBy (fun r => (r.load_dt, r.car_number)) work
  let floored := (work.insertionSort regWorkLe).map fun r =>
    { r with load_dt := floorF r.load_dt }
  let dropped := dropDupBy (fun r => (r.load_dt, r.region)) floored
  ((regionGroups dropped).map fun kg =>
    (⟨kg.1.1, PdCell.str (String.join (kg.2.map fun r => r.car_number)),
      regionMapGet kg.1.2⟩ : RegionRow)
  ).insertionSort regionRowLe

/-- C5: the regional breakdown does not count distinct vehicles. At the
failing input — two distinct matching plates of region digit 5 observed at
the same load time, with a 5-minute floor — the `vehicle_count` cell is the
plate string "1234AB5" (the pandas `'sum'` of one surviving plate after the
decimating drop step), not the count 2 the claim requires; moreover a plate
not matching the fixed pattern is dropped by the group-by (its region key is
missing), not counted under "other". The region assignment itself behaves as
claimed: "1234AB5" maps to the region keyed by '5' (Minsk Region). -/
theorem C5_regional_breakdown_code_bug :
    get_count_by_regions_floor (fun t => t - t % 300)
        [⟨2024, 9, 0, "1234AB5", 2, some 1, 3, 0, 0⟩,
         ⟨2024, 9, 0, "5678CD5", 2, some 2, 3, 0, 0⟩]
      = [⟨0, PdCell.str ("1234AB5"), "Minsk Region"⟩] ∧
    get_count_by_regions_nofloor
        [⟨2024, 9, 0, "1234AB5", 2, some 1, 3, 0, 0⟩,
         ⟨2024, 9, 0, "5678CD5", 2, some 2, 3, 0, 0⟩]
      = [⟨0, PdCell.int 2, "Minsk Region"⟩] ∧
    plateRegionChar ("1234AB5") = some '5' ∧
    regionMapGet '5' = "Minsk Region" ∧
    plateRegionChar ("1234AB") = none ∧
    get_count_by_regions_nofloor [⟨2024, 9, 0, "1234AB", 2, some 1, 3, 0, 0⟩]
      = [] := by
  decide

/-! ## Post-call wait (`queue_stats.py`, lines 389-491)

Claim C6. The `floor_value=None` path is embedded. -/

/-- The `aggregation_type` argument of `get_called_vehicles_waiting_time`
(the leading `assert` restricts it to min, max or mean). -/
inductive AggType
  | amin
  | amax
  | amean
deriving DecidableEq, Repr

/-- Pandas reducer on a numeric column: `'min'`, `'max'` or `'mean'` over the
group's values (groups are never empty; `0` is a don't-care for `[]`). -/
def aggReduce (t : AggType) (l : List Rat) : Rat :=
  match l with
  | [] => 0
  | a :: r =>
    match t with
    | .amin => r.foldl min a
    | .amax => r.foldl max a
    | .amean => ratMean (a :: r)

/-- Minimum of a nonempty integer list (pandas `'min'` on a datetime column;
`0` is a don't-care for `[]`). -/
def listMinInt (l : List Int) : Int :=
  match l with
  | [] => 0
  | a :: r => r.foldl min a

/-- One row of the per-visit frame built by the first
`groupby([CAR_NUMBER, REGISTRATION_DATE])` of
`get_called_vehicles_waiting_time`: the canceled flag `any(st == 9)`, the
first call time `changed_date: 'min'`, and the reducer-selected observation
time `load_dt: aggregation_type`. -/
structure VisitAgg where
  car_number : String
  reg_date : Int
  is_canceled : Bool
  changed_date : Int
  load_agg : Rat
deriving DecidableEq, Repr

/-- Lexicographic order on `(car_number, reg_date)` visit keys (pandas sorts
group keys). -/
def svLe (a b : String × Int) : Prop := a.1 < b.1 ∨ (a.1 = b.1 ∧ a.2 ≤ b.2)

instance : DecidableRel svLe := fun a b => by
  unfold svLe; infer_instance

/-- Natural order on call times used by the second `groupby`. -/
def intLe (a b : Int) : Prop := a ≤ b

instance : DecidableRel intLe := fun a b => by
  unfold intLe; infer_instance

/-- The per-visit aggregation: one `VisitAgg` per distinct
`(car_number, reg_date)` pair of the null-position rows. -/
def visitsOf (t : AggType) (nullpos : List EntryRow) : List VisitAgg :=
  ((nullpos.map fun r =>
      (r.car_number, r.reg_date)).dedup.insertionSort svLe).map fun k =>
    let g := nullpos.filter fun r =>
      decide (r.car_number = k.1 ∧ r.reg_date = k.2)
    ⟨k.1, k.2, g.any fun r => decide (r.status = 9),
     listMinInt (g.map fun r => r.changed_date),
     aggReduce t (g.map fun r => (r.load_dt : Rat))⟩

/-- One output row of `get_called_vehicles_waiting_time`. -/
structure CalledRow where
  relative_time : Int
  waiting_after_called : Rat
  queue_name : String
deriving DecidableEq, Repr

/-- Output order: `sort_values('relative_time')`. -/
def calledRowLe (a b : CalledRow) : Prop := a.relative_time ≤ b.relative_time

instance : DecidableRel calledRowLe := fun a b => by
  unfold calledRowLe; infer_instance

/-- `get_called_vehicles_waiting_time.read_queue` for one category
(`floor_value=None`): read the null-position rows, aggregate per visit,
drop canceled visits, group the surviving visits by first call time, reduce
their `load_agg` values with `aggregation_type` once more, and emit
`(load aggregate − call time)` in minutes rounded to 2 decimals. -/
def get_called_vehicles_waiting_time_queue (t : AggType) (qname : String)
    (rows : List EntryRow) : List CalledRow :=
  let nullpos := rows.filter fun r => r.queue_pos.isNone
  let kept := (visitsOf t nullpos).filter fun v => !v.is_canceled
  let cs := (kept.map fun v => v.changed_date).dedup.insertionSort intLe
  (cs.map fun c =>
    let ls := (kept.filter fun v => decide (v.changed_date = c)).map
      fun v => v.load_agg
    (⟨c, pyRound2 ((aggReduce t ls - (c : Rat)) / 60), qname⟩ : CalledRow)
  ).insertionSort calledRowLe

/-- `get_called_vehicles_waiting_time` (`floor_value=None`): validate the
category names, then concatenate the per-category frames. -/
def get_called_vehicles_waiting_time (t : AggType)
    (store : String → List EntryRow) (qnames : List String) :
    Except String (List CalledRow) :=
  match check_queue_names qnames with
  | .error e => .error e
  | .ok () =>
    .ok (qnames.flatMap fun q =>
      get_called_vehicles_waiting_time_queue t q (store q))

/-- Post-call wait as the amended claim words it: per non-canceled visit, the
reducer-selected trackable observation time (the last one only under `'max'`,
the first under `'min'`, their mean under `'mean'`) minus the first call
time, in minutes, aggregated with the same reducer across visits sharing the
call time, the aggregate rounded to 2 decimals. -/
def post_call_wait_spec (t : AggType) (qname : String)
    (rows : List EntryRow) : List CalledRow :=
  let nullpos := rows.filter fun r => r.queue_pos.isNone
  let kept := (visitsOf t nullpos).filter fun v => !v.is_canceled
  let cs := (kept.map fun v => v.changed_date).dedup.insertionSort intLe
  (cs.map fun (c : Int) =>
    let ws := (kept.filter fun v => decide (v.changed_date = c)).map
      fun v => (v.load_agg - (c : Rat)) / 60
    (⟨c, pyRound2 (aggReduce t ws), qname⟩ : CalledRow)
  ).insertionSort calledRowLe

/-- Subtracting a constant and dividing by 60 commutes with `min`. -/
theorem min_affine60 (k x y : Rat) :
    min ((x - k) / 60) ((y - k) / 60) = (min x y - k) / 60 := by
  rcases le_total x y with h | h
  · rw [min_eq_left h, min_eq_left
      ((div_le_div_iff_of_pos_right (by norm_num)).2 (sub_le_sub_right h k))]
  · rw [min_eq_right h, min_eq_right
      ((div_le_div_iff_of_pos_right (by norm_num)).2 (sub_le_sub_right h k))]

/-- Subtracting a constant and dividing by 60 commutes with `max`. -/
theorem max_affine60 (k x y : Rat) :
    max ((x - k) / 60) ((y - k) / 60) = (max x y - k) / 60 := by
  rcases le_total x y with h | h
  · rw [max_eq_right h, max_eq_right
      ((div_le_div_iff_of_pos_right (by norm_num)).2 (sub_le_sub_right h k))]
  · rw [max_eq_left h, max_eq_left
      ((div_le_div_iff_of_pos_right (by norm_num)).2 (sub_le_sub_right h k))]

/-- Sum after the affine map. -/
theorem sum_map_affine60 (k : Rat) (l : List Rat) :
    (l.map fun x => (x - k) / 60).sum = (l.sum - l.length * k) / 60 := by
  induction l with
  | nil => simp
  | cons a t ih =>
    simp only [List.map_cons, List.sum_cons, ih, List.length_cons]
    push_cast
    ring

/-- Mean after the affine map. -/
theorem ratMean_affine60 (k : Rat) (l : List Rat) (h : l ≠ []) :
    ratMean (l.map fun x => (x - k) / 60) = (ratMean l - k) / 60 := by
  have hn : (l.length : Rat) ≠ 0 := by
    exact_mod_cast Nat.pos_iff_ne_zero.1 (List.length_pos.2 h)
  rw [ratMean, ratMean, sum_map_affine60, List.length_map]
  rw [div_div, div_sub' _ _ _ hn, div_div]
  ring_nf

/-- Folded minimum after the affine map. -/
theorem foldl_min_affine60 (k : Rat) :
    ∀ (r : List Rat) (a : Rat),
      (r.map fun x => (x - k) / 60).foldl min ((a - k) / 60)
        = (r.foldl min a - k) / 60 := by
  intro r
  induction r with
  | nil => intro a; rfl
  | cons b rb ih =>
    intro a
    simp only [List.map_cons, List.foldl_cons]
    rw [min_affine60, ih (min a b)]

/-- Folded maximum after the affine map. -/
theorem foldl_max_affine60 (k : Rat) :
    ∀ (r : List Rat) (a : Rat),
      (r.map fun x => (x - k) / 60).foldl max ((a - k) / 60)
        = (r.foldl max a - k) / 60 := by
  intro r
  induction r with
  | nil => intro a; rfl
  | cons b rb ih =>
    intro a
    simp only [List.map_cons, List.foldl_cons]
    rw [max_affine60, ih (max a b)]

/-- Each of the three reducers commutes with the per-visit affine map
`x ↦ (x − call time) / 60` on a nonempty group. -/
theorem aggReduce_affine60 (t : AggType) (l : List Rat) (h : l ≠ [])
    (k : Rat) :
    aggReduce t (l.map fun x => (x - k) / 60) = (aggReduce t l - k) / 60 := by
  match l, h with
  | a :: r, _ =>
    cases t with
    | amin =>
      simp only [aggReduce, List.map_cons]
      exact foldl_min_affine60 k r a
    | amax =>
      simp only [aggReduce, List.map_cons]
      exact foldl_max_affine60 k r a
    | amean =>
      simp only [aggReduce, List.map_cons]
      rw [show ((a - k) / 60 :: List.map (fun x => (x - k) / 60) r)
          = (a :: r).map fun x => (x - k) / 60 by simp]
      exact ratMean_affine60 k (a :: r) (by simp)

/-- The code's per-category post-call-wait frame coincides with the amended
specification frame: rounding once after the outer reduction of
`(load aggregate − call time)` equals reducing the per-visit
minute-waits and rounding the aggregate. -/
theorem called_queue_eq_spec (t : AggType) (qname : String)
    (rows : List EntryRow) :
    get_called_vehicles_waiting_time_queue t qname rows
      = post_call_wait_spec t qname rows := by
  rw [get_called_vehicles_waiting_time_queue, post_call_wait_spec]
  congr 1
  apply List.map_congr_left
  intro c hc
  have hmarkers : ∃ v ∈ (visitsOf t (rows.filter fun r =>
      r.queue_pos.isNone)).filter fun v => !v.is_canceled,
      v.changed_date = c := by
    rcases List.mem_dedup.1 ((List.mem_insertionSort intLe).1 hc) with hmem
    rcases List.mem_map.1 hmem with ⟨v, hv, rfl⟩
    exact ⟨v, hv, rfl⟩
  rcases hmarkers with ⟨v, hv, hvc⟩
  have hne : ((((visitsOf t (rows.filter fun r => r.queue_pos.isNone)).filter
      fun v => !v.is_canceled).filter fun v =>
        decide (v.changed_date = c)).map fun v => v.load_agg) ≠ [] := by
    have : v ∈ ((visitsOf t (rows.filter fun r => r.queue_pos.isNone)).filter
        fun v => !v.is_canceled).filter fun v =>
          decide (v.changed_date = c) :=
      List.mem_filter.2 ⟨hv, decide_eq_true hvc⟩
    intro hnil
    rw [List.map_eq_nil_iff] at hnil
    rw [hnil] at this
    cases this
  have := aggReduce_affine60 t _ hne (c : Rat)
  rw [List.map_map] at this
  simp only [Function.comp_def] at this
  dsimp only
  rw [this]

/-- C6 amended: on success the post-call-wait output is, per category, one
row per distinct first-call time of the visits that reached called status
(observed with null position) and were never canceled, with
`waiting_after_called` equal to the reducer-aggregate — across visits sharing
that call time — of each visit's (reducer-selected trackable observation time
− first call time) in minutes, rounded to 2 decimal places; canceled visits
contribute no row. -/
theorem C6_post_call_wait_amended (t : AggType)
    (store : String → List EntryRow) (qnames : List String)
    (out : List CalledRow)
    (h : get_called_vehicles_waiting_time t store qnames = Except.ok out) :
    out = qnames.flatMap fun q => post_call_wait_spec t q (store q) := by
  cases hchk : check_queue_names qnames with
  | error e => rw [get_called_vehicles_waiting_time, hchk] at h; cases h
  | ok u =>
    rw [get_called_vehicles_waiting_time, hchk] at h
    have hout := (Except.ok.inj h).symm
    rw [hout]
    have hfun : (fun q => get_called_vehicles_waiting_time_queue t q (store q))
        = fun q => post_call_wait_spec t q (store q) :=
      funext fun q => called_queue_eq_spec t q (store q)
    rw [hfun]

/-- The store of the C6 counterexample: one visit in "carLiveQueue"
(vehicle "AB241", registered at tick 0) first called at tick 100 and still
trackable in two later snapshots, loaded at ticks 1000 and 2000. -/
def c6Store : String → List EntryRow := fun q =>
  if q = "carLiveQueue" then
    [⟨2024, 9, 1000, "AB241", 3, none, 3, 0, 100⟩,
     ⟨2024, 9, 2000, "AB241", 3, none, 3, 0, 100⟩]
  else []

/-- C6 counterexample: under the default reducer `'min'`, the single visit
above yields a wait of `(1000 − 100)/60 = 15` minutes — the code reduces the
observation times inside the visit with the same reducer — whereas the claim
demands `(2000 − 100)/60`, the last trackable observation minus the first
call time, i.e. `31.67` after rounding. -/
theorem C6_post_call_wait_counterexample :
    get_called_vehicles_waiting_time AggType.amin c6Store ["carLiveQueue"]
      = Except.ok [⟨100, 15, "carLiveQueue"⟩] ∧
    pyRound2 (((2000 - 100 : Int) : Rat) / 60) = 3167/100 ∧
    (15 : Rat) ≠ 3167/100 := by
  have hc : check_queue_names ["carLiveQueue"] = Except.ok () := by decide
  refine ⟨?_, by norm_num [pyRound2], by norm_num⟩
  simp only [get_called_vehicles_waiting_time, hc]
  norm_num [c6Store, get_called_vehicles_waiting_time_queue, visitsOf,
    listMinInt, aggReduce, ratMean, List.insertionSort, List.orderedInsert,
    svLe, intLe, calledRowLe, pyRound2]

/-- C6 amended witness: the counterexample store evaluated through the
amended characterization. -/
theorem C6_post_call_wait_amended_witness :
    ([⟨100, 15, "carLiveQueue"⟩] : List CalledRow)
      = ["carLiveQueue"].flatMap fun q =>
          post_call_wait_spec AggType.amin q (c6Store q) := by
  have h : get_called_vehicles_waiting_time AggType.amin c6Store
      ["carLiveQueue"] = Except.ok [⟨100, 15, "carLiveQueue"⟩] := by
    have hc : check_queue_names ["carLiveQueue"] = Except.ok () := by decide
    simp only [get_called_vehicles_waiting_time, hc]
    norm_num [c6Store, get_called_vehicles_waiting_time_queue, visitsOf,
      listMinInt, aggReduce, ratMean, List.insertionSort, List.orderedInsert,
      svLe, intLe, calledRowLe, pyRound2]
  exact C6_post_call_wait_amended AggType.amin c6Store ["carLiveQueue"] _ h

/-! ## Datetime aggregation (`data_processing.py`, lines 6-81)

Claim C7. The frame schema is fixed to one time column, one extra group
column, one numeric value column and one object (string) column; the floor
operation `dt.floor(floor_value)` is abstracted by an arbitrary function on
ticks. -/

/-- One row of a frame fed to `apply_datetime_aggregation`. -/
structure ARow where
  t : Int
  grp : String
  num : Rat
  txt : String
deriving DecidableEq, Repr

/-- `sort_values(time_column)` order. -/
def aRowLe (a b : ARow) : Prop := a.t ≤ b.t

instance : DecidableRel aRowLe := fun a b => by
  unfold aRowLe; infer_instance

instance : IsTotal ARow aRowLe := ⟨fun a b => le_total a.t b.t⟩

instance : IsTrans ARow aRowLe := ⟨fun _ _ _ hab hbc => le_trans hab hbc⟩

/-- Lexicographic order on `(floored time, group)` keys (pandas `groupby`
sorts its keys). -/
def isLe (a b : Int × String) : Prop := a.1 < b.1 ∨ (a.1 = b.1 ∧ a.2 ≤ b.2)

instance : DecidableRel isLe := fun a b => by
  unfold isLe; infer_instance

/-- The `aggregation_method` argument: `'mean'`, `'max'`, `'min'` or
`'drop'`. -/
inductive AggMethod
  | mean
  | amax
  | amin
  | drop
deriving DecidableEq, Repr

/-- A per-column reducer resolved from `value_columns` (or the default): the
numeric reducers plus pandas `'first'`. -/
inductive NumRed
  | mean
  | amax
  | amin
  | first
deriving DecidableEq, Repr

/-- Apply a resolved reducer to the numeric column of a group (groups are
never empty; `0` is a don't-care for `[]`). -/
def numReduce (red : NumRed) (l : List Rat) : Rat :=
  match l with
  | [] => 0
  | a :: r =>
    match red with
    | .mean => ratMean (a :: r)
    | .amax => r.foldl max a
    | .amin => r.foldl min a
    | .first => a

/-- `apply_datetime_aggregation` with a non-`None` floor: copy and sort by
the time column, floor it, then either decimate (`'drop'`: keep the first row
per `(floored time, group)`) or group by `(floored time, group)` reducing the
numeric column with the resolved reducer and the object column with
`'first'`. -/
def apply_datetime_aggregation_model (floorF : Int → Int) (method : AggMethod)
    (numRed : NumRed) (rows : List ARow) : List ARow :=
  let floored := (rows.insertionSort aRowLe).map fun r =>
    { r with t := floorF r.t }
  match method with
  | .drop => dropDupBy (fun r => (r.t, r.grp)) floored
  | _ =>
    let keys := (floored.map fun r => (r.t, r.grp)).dedup.insertionSort isLe
    keys.map fun k =>
      let g := floored.filter fun r => decide (r.t = k.1 ∧ r.grp = k.2)
      ⟨k.1, k.2, numReduce numRed (g.map fun r => r.num),
       ((g.map fun r => r.txt).headD (""))⟩

/-- C7 counterexample: with the `'drop'` reducer (one of the fixed
configurations the claim quantifies over) and two rows tying on the time
column, swapping the input rows changes which row survives, so the output —
a singleton either way, hence sorted either way — depends on input order. -/
theorem C7_aggregation_order_dependence_counterexample :
    List.Perm [(⟨0, "g", 2, "y"⟩ : ARow), ⟨0, "g", 1, "x"⟩]
      [⟨0, "g", 1, "x"⟩, ⟨0, "g", 2, "y"⟩] ∧
    apply_datetime_aggregation_model id AggMethod.drop NumRed.mean
        [⟨0, "g", 1, "x"⟩, ⟨0, "g", 2, "y"⟩]
      = [⟨0, "g", 1, "x"⟩] ∧
    apply_datetime_aggregation_model id AggMethod.drop NumRed.mean
        [⟨0, "g", 2, "y"⟩, ⟨0, "g", 1, "x"⟩]
      = [⟨0, "g", 2, "y"⟩] ∧
    ([(⟨0, "g", 1, "x"⟩ : ARow)] : List ARow) ≠ [⟨0, "g", 2, "y"⟩] := by
  decide

/-- Two sorted lists that are permutations of each other and whose keys are
pairwise distinct are equal. -/
theorem eq_of_perm_of_sorted_nodup_keys {α κ : Type} [LinearOrder κ]
    (key : α → κ) :
    ∀ l1 l2 : List α, l1.Perm l2 →
      l1.Sorted (fun a b => key a ≤ key b) →
      l2.Sorted (fun a b => key a ≤ key b) →
      (l1.map key).Nodup → l1 = l2 := by
  intro l1
  induction l1 with
  | nil =>
    intro l2 hp _ _ _
    exact hp.nil_eq
  | cons a t1 ih =>
    intro l2 hp hs1 hs2 hnd
    cases l2 with
    | nil => cases hp.symm.nil_eq
    | cons b t2 =>
      have hab : a = b := by
        by_contra hne
        have hbmem : b ∈ a :: t1 := hp.symm.subset (List.mem_cons_self b t2)
        have hamem : a ∈ b :: t2 := hp.subset (List.mem_cons_self a t1)
        have hbt1 : b ∈ t1 := by
          rcases List.mem_cons.1 hbmem with h | h
          · exact absurd h.symm hne
          · exact h
        have hat2 : a ∈ t2 := by
          rcases List.mem_cons.1 hamem with h | h
          · exact absurd h hne
          · exact h
        have h1 : key a ≤ key b := List.rel_of_sorted_cons hs1 b hbt1
        have h2 : key b ≤ key a := List.rel_of_sorted_cons hs2 a hat2
        have hkey : key a = key b := le_antisymm h1 h2
        have : key a ∉ t1.map key := (List.nodup_cons.1 hnd).1
        exact this (hkey ▸ List.mem_map_of_mem key hbt1)
      subst hab
      have htail : t1.Perm t2 := hp.cons_inv
      rw [ih t2 htail hs1.of_cons hs2.of_cons (List.nodup_cons.1 hnd).2]

/-- Sorting by the time column is order-insensitive when no two rows tie on
it. -/
theorem insertionSort_eq_of_perm_of_nodup_t (l1 l2 : List ARow)
    (hp : l1.Perm l2) (hnd : (l1.map fun r => r.t).Nodup) :
    l1.insertionSort aRowLe = l2.insertionSort aRowLe := by
  apply eq_of_perm_of_sorted_nodup_keys (fun r : ARow => r.t)
  · exact ((List.perm_insertionSort aRowLe l1).trans hp).trans
      (List.perm_insertionSort aRowLe l2).symm
  · exact List.sorted_insertionSort aRowLe l1
  · exact List.sorted_insertionSort aRowLe l2
  · exact ((List.perm_insertionSort aRowLe l1).map fun r => r.t).nodup_iff.2 hnd

/-- C7 amended: for every fixed configuration (floor function, aggregation
method including `'drop'`, resolved numeric reducer) and every permutation of
an input frame in which no two rows share the same time value, the
aggregation output is identical — with tied time values the keep-first
semantics of `'drop'` and of the `'first'` reducer make the output depend on
input order. -/
theorem C7_aggregation_order_independence_amended (floorF : Int → Int)
    (method : AggMethod) (numRed : NumRed) (l1 l2 : List ARow)
    (hp : l1.Perm l2) (hnd : (l1.map fun r => r.t).Nodup) :
    apply_datetime_aggregation_model floorF method numRed l1
      = apply_datetime_aggregation_model floorF method numRed l2 := by
  unfold apply_datetime_aggregation_model
  rw [insertionSort_eq_of_perm_of_nodup_t l1 l2 hp hnd]

/-- C7 amended witness: shuffling two tie-free rows leaves a mean aggregation
unchanged. -/
theorem C7_aggregation_order_independence_amended_witness :
    apply_datetime_aggregation_model (fun t => t - t % 300) AggMethod.mean
        NumRed.mean [⟨0, "g", 1, "x"⟩, ⟨30, "g", 2, "y"⟩]
      = apply_datetime_aggregation_model (fun t => t - t % 300) AggMethod.mean
          NumRed.mean [⟨30, "g", 2, "y"⟩, ⟨0, "g", 1, "x"⟩] :=
  C7_aggregation_order_independence_amended (fun t => t - t % 300)
    AggMethod.mean NumRed.mean [⟨0, "g", 1, "x"⟩, ⟨30, "g", 2, "y"⟩]
    [⟨30, "g", 2, "y"⟩, ⟨0, "g", 1, "x"⟩] (by decide) (by decide)

/-! ## Snapshot normalization (`data_storage_utils.py`, lines 10-73)

Claim C8. `datetime.strptime` is embedded field by field after the regexes
Python's `_strptime` builds: `%H` is `2[0-3]|[0-1]\d|\d`, `%M` is
`[0-5]\d|\d`, `%S` is `6[0-1]|[0-5]\d|\d`, `%d` is
`3[01]|[12]\d|0[1-9]|[1-9]| [1-9]`, `%m` is `1[0-2]|0[1-9]|[1-9]`, `%Y` is
`\d\d\d\d`, `%f` is `[0-9]{1,6}` (scaled to microseconds); the regex must
match the whole string, and the `datetime` constructor then validates the
calendar day and rejects leap seconds. A missing dict key raises `KeyError`,
a failed parse `ValueError`; both are modelled by `ConvErr`. -/

/-- A parsed `datetime` value. -/
structure DT where
  year : Nat
  month : Nat
  day : Nat
  hour : Nat
  minute : Nat
  second : Nat
  micro : Nat
deriving DecidableEq, Repr

/-- Numeric value of an ASCII digit. -/
def digVal (c : Char) : Nat := c.toNat - 48

/-- `%H` (`2[0-3]|[0-1]\d|\d`): a two-digit hour up to 23, else one digit. -/
def parseH : List Char → Option (Nat × List Char)
  | a :: b :: rest =>
    if a.isDigit && b.isDigit && decide (10 * digVal a + digVal b ≤ 23) then
      some (10 * digVal a + digVal b, rest)
    else if a.isDigit then some (digVal a, b :: rest)
    else none
  | [a] => if a.isDigit then some (digVal a, []) else none
  | [] => none

/-- `%M` (`[0-5]\d|\d`): a two-digit minute up to 59, else one digit. -/
def parseM : List Char → Option (Nat × List Char)
  | a :: b :: rest =>
    if a.isDigit && b.isDigit && decide (10 * digVal a + digVal b ≤ 59) then
      some (10 * digVal a + digVal b, rest)
    else if a.isDigit then some (digVal a, b :: rest)
    else none
  | [a] => if a.isDigit then some (digVal a, []) else none
  | [] => none

/-- `%S` (`6[0-1]|[0-5]\d|\d`): a two-digit second up to 61 (leap seconds
pass the regex and are rejected by the constructor), else one digit. -/
def parseS : List Char → Option (Nat × List Char)
  | a :: b :: rest =>
    if a.isDigit && b.isDigit && decide (10 * digVal a + digVal b ≤ 61) then
      some (10 * digVal a + digVal b, rest)
    else if a.isDigit then some (digVal a, b :: rest)
    else none
  | [a] => if a.isDigit then some (digVal a, []) else none
  | [] => none

/-- `%d` (`3[01]|[12]\d|0[1-9]|[1-9]| [1-9]`): a two-digit day 01..31, a
single digit 1..9, or a space-padded digit 1..9. -/
def parseDay : List Char → Option (Nat × List Char)
  | a :: b :: rest =>
    if a.isDigit && b.isDigit &&
        decide (1 ≤ 10 * digVal a + digVal b ∧ 10 * digVal a + digVal b ≤ 31)
    then some (10 * digVal a + digVal b, rest)
    else if a.isDigit && decide (1 ≤ digVal a) then some (digVal a, b :: rest)
    else if decide (a = ' ') && b.isDigit && decide (1 ≤ digVal b) then
      some (digVal b, rest)
    else none
  | [a] =>
    if a.isDigit && decide (1 ≤ digVal a) then some (digVal a, []) else none
  | [] => none

/-- `%m` (`1[0-2]|0[1-9]|[1-9]`): a two-digit month 01..12, else a single
digit 1..9. -/
def parseMonth : List Char → Option (Nat × List Char)
  | a :: b :: rest =>
    if a.isDigit && b.isDigit &&
        decide (1 ≤ 10 * digVal a + digVal b ∧ 10 * digVal a + digVal b ≤ 12)
    then some (10 * digVal a + digVal b, rest)
    else if a.isDigit && decide (1 ≤ digVal a) then some (digVal a, b :: rest)
    else none
  | [a] =>
    if a.isDigit && decide (1 ≤ digVal a) then some (digVal a, []) else none
  | [] => none

/-- `%Y` (`\d\d\d\d`): exactly four digits. -/
def parseYear : List Char → Option (Nat × List Char)
  | a :: b :: c :: d :: rest =>
    if a.isDigit && b.isDigit && c.isDigit && d.isDigit then
      some (1000 * digVal a + 100 * digVal b + 10 * digVal c + digVal d, rest)
    else none
  | _ => none

/-- Greedily take up to `n` leading digits. -/
def takeDigits : Nat → List Char → List Char × List Char
  | 0, l => ([], l)
  | _ + 1, [] => ([], [])
  | n + 1, a :: rest =>
    if a.isDigit then
      let (ds, r) := takeDigits n rest
      (a :: ds, r)
    else ([], a :: rest)

/-- `%f` (`[0-9]{1,6}`): one to six digits, scaled to microseconds by
`10^(6-len)`. -/
def parseMicro (l : List Char) : Option (Nat × List Char) :=
  let (ds, r) := takeDigits 6 l
  if ds.length = 0 then none
  else some ((ds.foldl (fun acc c => 10 * acc + digVal c) 0)
    * 10 ^ (6 - ds.length), r)

/-- A single expected literal character of the format. -/
def expectChar (c : Char) : List Char → Option (List Char)
  | a :: rest => if a = c then some rest else none
  | [] => none

/-- Gregorian leap year. -/
def isLeap (y : Nat) : Bool := (y % 4 == 0 && y % 100 != 0) || y % 400 == 0

/-- Days in a month. -/
def daysInMonth (y m : Nat) : Nat :=
  if m = 2 then (if isLeap y then 29 else 28)
  else if m = 4 ∨ m = 6 ∨ m = 9 ∨ m = 11 then 30
  else 31

/-- The range checks of the `datetime` constructor (the regex already bounds
hour and minute; seconds 60/61 and day-of-month overflows fail here). -/
def dtValid (d : DT) : Bool :=
  decide (1 ≤ d.year ∧ d.year ≤ 9999 ∧ 1 ≤ d.month ∧ d.month ≤ 12) &&
  decide (1 ≤ d.day ∧ d.day ≤ daysInMonth d.year d.month) &&
  decide (d.hour ≤ 23 ∧ d.minute ≤ 59 ∧ d.second ≤ 59 ∧ d.micro ≤ 999999)

/-- `datetime.strptime(s, '%H:%M:%S %d.%m.%Y')` (registration/changed-time
wire format). -/
def strptimeReg (s : String) : Option DT :=
  match parseH s.toList with
  | none => none
  | some (h, r1) =>
    match expectChar ':' r1 with
    | none => none
    | some r2 =>
      match parseM r2 with
      | none => none
      | some (mi, r3) =>
        match expectChar ':' r3 with
        | none => none
        | some r4 =>
          match parseS r4 with
          | none => none
          | some (se, r5) =>
            match expectChar ' ' r5 with
            | none => none
            | some r6 =>
              match parseDay r6 with
              | none => none
              | some (d, r7) =>
                match expectChar '.' r7 with
                | none => none
                | some r8 =>
                  match parseMonth r8 with
                  | none => none
                  | some (mo, r9) =>
                    match expectChar '.' r9 with
                    | none => none
                    | some r10 =>
                      match parseYear r10 with
                      | none => none
                      | some (y, r11) =>
                        if r11 = [] then
                          if dtValid ⟨y, mo, d, h, mi, se, 0⟩ then
                            some ⟨y, mo, d, h, mi, se, 0⟩
                          else none
                        else none

/-- `datetime.strptime(s, '%Y-%m-%d %H:%M:%S.%f')` (load-time wire format). -/
def strptimeLoad (s : String) : Option DT :=
  match parseYear s.toList with
  | none => none
  | some (y, r1) =>
    match expectChar '-' r1 with
    | none => none
    | some r2 =>
      match parseMonth r2 with
      | none => none
      | some (mo, r3) =>
        match expectChar '-' r3 with
        | none => none
        | some r4 =>
          match parseDay r4 with
          | none => none
          | some (d, r5) =>
            match expectChar ' ' r5 with
            | none => none
            | some r6 =>
              match parseH r6 with
              | none => none
              | some (h, r7) =>
                match expectChar ':' r7 with
                | none => none
                | some r8 =>
                  match parseM r8 with
                  | none => none
                  | some (mi, r9) =>
                    match expectChar ':' r9 with
                    | none => none
                    | some r10 =>
                      match parseS r10 with
                      | none => none
                      | some (se, r11) =>
                        match expectChar '.' r11 with
                        | none => none
                        | some r12 =>
                          match parseMicro r12 with
                          | none => none
                          | some (f, r13) =>
                            if r13 = [] then
                              if dtValid ⟨y, mo, d, h, mi, se, f⟩ then
                                some ⟨y, mo, d, h, mi, se, f⟩
                              else none
                            else none

/-- A raw vehicle entry as received from the wire. `none` in an outer
`Option` models a missing dict key (`KeyError` on access); `order_id` itself
may hold the JSON value `null`. -/
structure RawEntity where
  regnum : Option String
  status : Option Int
  order_id : Option (Option Rat)
  type_queue : Option Int
  registration_date : Option String
  changed_date : Option String
deriving DecidableEq, Repr

/-- The raw `info` sub-record; `none` models a missing key. -/
structure RawInfo where
  id : Option String
  nameEn : Option String
  address : Option String
  phone : Option String
  isBts : Option Int
  name : Option String
deriving DecidableEq, Repr

/-- One raw snapshot: the load-time string, the info sub-record, and the nine
vehicle-entry arrays; `none` models a missing key. -/
structure RawSnapshot where
  datetime : Option String
  info : Option RawInfo
  truckLiveQueue : Option (List RawEntity)
  truckPriority : Option (List RawEntity)
  truckGpk : Option (List RawEntity)
  busLiveQueue : Option (List RawEntity)
  busPriority : Option (List RawEntity)
  carLiveQueue : Option (List RawEntity)
  carPriority : Option (List RawEntity)
  motorcycleLiveQueue : Option (List RawEntity)
  motorcyclePriority : Option (List RawEntity)
deriving DecidableEq, Repr

/-- The raised error: `KeyError` for a missing field, `ValueError` for a
timestamp that fails its wire format (the spec's `ValidationError`). -/
inductive ConvErr
  | keyError (k : String)
  | valueError (s : String)
deriving DecidableEq, Repr

/-- One normalized queue-entry row (`convert_equeue_entity_to_pandas`), with
timestamps kept as parsed `DT` values. -/
structure NormEntry where
  year : Nat
  month : Nat
  load_dt : DT
  car_number : String
  status : Int
  queue_pos : Option Rat
  queue_type : Int
  reg_date : DT
  changed_date : DT
deriving DecidableEq, Repr

/-- `convert_equeue_entity_to_pandas`: dict accesses in source order, then
the two `strptime` calls; any miss raises. -/
def convert_equeue_entity_to_pandas (e : RawEntity) (load : DT) :
    Except ConvErr NormEntry :=
  match e.regnum with
  | none => .error (.keyError ("regnum"))
  | some regnum =>
    match e.status with
    | none => .error (.keyError ("status"))
    | some status =>
      match e.order_id with
      | none => .error (.keyError ("order_id"))
      | some order_id =>
        match e.type_queue with
        | none => .error (.keyError ("type_queue"))
        | some type_queue =>
          match e.registration_date with
          | none => .error (.keyError ("registration_date"))
          | some rds =>
            match strptimeReg rds with
            | none => .error (.valueError rds)
            | some regDt =>
              match e.changed_date with
              | none => .error (.keyError ("changed_date"))
              | some cds =>
                match strptimeReg cds with
                | none => .error (.valueError cds)
                | some chDt =>
                  .ok ⟨load.year, load.month, load, regnum, status,
                    order_id, type_queue, regDt, chDt⟩

/-- The six dict accesses of `convert_equeue_info_to_pandas` (the row
assembly itself, hash included, is `convert_equeue_info_to_pandas` above). -/
def convert_equeue_info_fields (i : RawInfo) : Except ConvErr InfoInput :=
  match i.id with
  | none => .error (.keyError ("id"))
  | some idv =>
    match i.nameEn with
    | none => .error (.keyError ("nameEn"))
    | some nameEn =>
      match i.address with
      | none => .error (.keyError ("address"))
      | some address =>
        match i.phone with
        | none => .error (.keyError ("phone"))
        | some phone =>
          match i.isBts with
          | none => .error (.keyError ("isBts"))
          | some isBts =>
            match i.name with
            | none => .error (.keyError ("name"))
            | some name => .ok ⟨idv, nameEn, address, phone, isBts, name⟩

/-- `convert_and_group_entities` over one category array: convert each entry
in order, propagating the first raised error. -/
def convertEntities (load : DT) : List RawEntity →
    Except ConvErr (List NormEntry)
  | [] => .ok []
  | e :: rest =>
    match convert_equeue_entity_to_pandas e load with
    | .error err => .error err
    | .ok v =>
      match convertEntities load rest with
      | .error err => .error err
      | .ok vs => .ok (v :: vs)

/-- The normalizer's output: one info record plus the nine per-category
tables (an empty list models the `None` frame of an empty category). -/
structure NormSnapshotData where
  info : InfoInput
  load_dt : DT
  truck_queue : List NormEntry
  truck_priority : List NormEntry
  truck_gpk : List NormEntry
  bus_queue : List NormEntry
  bus_priority : List NormEntry
  car_queue : List NormEntry
  car_priority : List NormEntry
  motorcycle_queue : List NormEntry
  motorcycle_priority : List NormEntry
deriving DecidableEq, Repr

/-- `convert_to_pandas_equeue`: parse the load time, convert the info record
and the nine category arrays, in source evaluation order. -/
def convert_to_pandas_equeue (s : RawSnapshot) :
    Except ConvErr NormSnapshotData :=
  match s.datetime with
  | none => .error (.keyError ("datetime"))
  | some dts =>
    match strptimeLoad dts with
    | none => .error (.valueError dts)
    | some load =>
      match s.info with
      | none => .error (.keyError ("info"))
      | some infoRaw =>
        match convert_equeue_info_fields infoRaw with
        | .error e => .error e
        | .ok info =>
          match s.truckLiveQueue with
          | none => .error (.keyError ("truckLiveQueue"))
          | some tlq =>
            match convertEntities load tlq with
            | .error e => .error e
            | .ok truck_queue =>
              match s.truckPriority with
              | none => .error (.keyError ("truckPriority"))
              | some tpq =>
                match convertEntities load tpq with
                | .error e => .error e
                | .ok truck_priority =>
                  match s.truckGpk with
                  | none => .error (.keyError ("truckGpk"))
                  | some tgq =>
                    match convertEntities load tgq with
                    | .error e => .error e
                    | .ok truck_gpk =>
                      match s.busLiveQueue with
                      | none => .error (.keyError ("busLiveQueue"))
                      | some blq =>
                        match convertEntities load blq with
                        | .error e => .error e
                        | .ok bus_queue =>
                          match s.busPriority with
                          | none => .error (.keyError ("busPriority"))
                          | some bpq =>
                            match convertEntities load bpq with
                            | .error e => .error e
                            | .ok bus_priority =>
                              match s.carLiveQueue with
                              | none => .error (.keyError ("carLiveQueue"))
                              | some clq =>
                                match convertEntities load clq with
                                | .error e => .error e
                                | .ok car_queue =>
                                  match s.carPriority with
                                  | none => .error (.keyError ("carPriority"))
                                  | some cpq =>
                                    match convertEntities load cpq with
                                    | .error e => .error e
                                    | .ok car_priority =>
                                      match s.motorcycleLiveQueue with
                                      | none =>
                                        .error (.keyError ("motorcycleLiveQueue"))
                                      | some mlq =>
                                        match convertEntities load mlq with
                                        | .error e => .error e
                                        | .ok motorcycle_queue =>
                                          match s.motorcyclePriority with
                                          | none =>
                                            .error (.keyError ("motorcyclePriority"))
                                          | some mpq =>
                                            match convertEntities load mpq with
                                            | .error e => .error e
                                            | .ok motorcycle_priority =>
                                              .ok ⟨info, load, truck_queue,
                                                truck_priority, truck_gpk,
                                                bus_queue, bus_priority,
                                                car_queue, car_priority,
                                                motorcycle_queue,
                                                motorcycle_priority⟩

/-- Well-formedness of a raw entry: all six fields present and both
timestamps accepted by the registration wire format. -/
def entityWellFormed (e : RawEntity) : Bool :=
  e.regnum.isSome && e.status.isSome && e.order_id.isSome &&
    e.type_queue.isSome &&
    (e.registration_date.elim false fun s => (strptimeReg s).isSome) &&
    (e.changed_date.elim false fun s => (strptimeReg s).isSome)

/-- Well-formedness of the raw info record: all six fields present. -/
def infoWellFormed (i : RawInfo) : Bool :=
  i.id.isSome && i.nameEn.isSome && i.address.isSome && i.phone.isSome &&
    i.isBts.isSome && i.name.isSome

/-- Well-formedness of a raw snapshot: load time present and accepted by its
wire format, info record and all nine arrays present and well-formed. -/
def snapshotWellFormed (s : RawSnapshot) : Bool :=
  (s.datetime.elim false fun d => (strptimeLoad d).isSome) &&
    (s.info.elim false infoWellFormed) &&
    (s.truckLiveQueue.elim false fun es => es.all entityWellFormed) &&
    (s.truckPriority.elim false fun es => es.all entityWellFormed) &&
    (s.truckGpk.elim false fun es => es.all entityWellFormed) &&
    (s.busLiveQueue.elim false fun es => es.all entityWellFormed) &&
    (s.busPriority.elim false fun es => es.all entityWellFormed) &&
    (s.carLiveQueue.elim false fun es => es.all entityWellFormed) &&
    (s.carPriority.elim false fun es => es.all entityWellFormed) &&
    (s.motorcycleLiveQueue.elim false fun es => es.all entityWellFormed) &&
    (s.motorcyclePriority.elim false fun es => es.all entityWellFormed)

/-- Entity conversion succeeds exactly on well-formed entries. -/
theorem convert_entity_isOk (e : RawEntity) (load : DT) :
    (convert_equeue_entity_to_pandas e load).isOk = entityWellFormed e := by
  rcases e with ⟨rn, st, oi, tq, rd, cd⟩
  cases rn <;> cases st <;> cases oi <;> cases tq <;> cases rd <;> cases cd <;>
    simp only [convert_equeue_entity_to_pandas, entityWellFormed,
      Option.isSome_none, Option.isSome_some, Option.elim_none,
      Option.elim_some, Bool.false_and, Bool.and_false, Bool.true_and,
      Bool.and_true, Except.isOk]
  all_goals (try rfl)
  all_goals ((repeat' split) <;> (first | rfl | simp_all [Except.toBool]))

/-- Info-field extraction succeeds exactly on well-formed info records. -/
theorem convert_info_isOk (i : RawInfo) :
    (convert_equeue_info_fields i).isOk = infoWellFormed i := by
  rcases i with ⟨a, b, c, d, e, f⟩
  cases a <;> cases b <;> cases c <;> cases d <;> cases e <;> cases f <;> rfl

/-- Category conversion succeeds exactly when every entry converts. -/
theorem convertEntities_isOk (load : DT) (es : List RawEntity) :
    (convertEntities load es).isOk = es.all entityWellFormed := by
  induction es with
  | nil => rfl
  | cons a t ih =>
    rw [List.all_cons, ← convert_entity_isOk a load, ← ih, convertEntities]
    cases convert_equeue_entity_to_pandas a load with
    | error e => rfl
    | ok v =>
      cases convertEntities load t with
      | error e => rfl
      | ok vs => rfl

/-- C8: the snapshot normalizer is a pure function that fails with a typed
error exactly when a required field is missing or a timestamp fails its wire
format, and succeeds otherwise; concrete checks: a valid registration
timestamp and the test-suite load timestamp parse (microseconds scaled),
while a truncated registration string and a load string without fractional
seconds are rejected. -/
theorem C8_normalizer_validation :
    (∀ s : RawSnapshot,
      (convert_to_pandas_equeue s).isOk = snapshotWellFormed s) ∧
    strptimeReg ("20:11:32 29.09.2024") = some ⟨2024, 9, 29, 20, 11, 32, 0⟩ ∧
    strptimeLoad ("2024-09-30 15:31:21.954864")
      = some ⟨2024, 9, 30, 15, 31, 21, 954864⟩ ∧
    strptimeLoad ("2024-09-30 15:31:21.95")
      = some ⟨2024, 9, 30, 15, 31, 21, 950000⟩ ∧
    strptimeReg ("20:11:32 31.09.2024") = none ∧
    strptimeReg ("20:11:32 29.09") = none ∧
    strptimeLoad ("2024-09-30 15:31:21") = none := by
  refine ⟨?_, by decide, by decide, by decide, by decide, by decide, by decide⟩
  intro s
  rcases s with ⟨dts, info, f1, f2, f3, f4, f5, f6, f7, f8, f9⟩
  rw [snapshotWellFormed]
  cases dts with
  | none => rfl
  | some d =>
    rw [convert_to_pandas_equeue]
    simp only [Option.elim_some]
    cases hld : strptimeLoad d with
    | none => simp [hld, Except.isOk, Except.toBool]
    | some load =>
      simp only [hld, Option.isSome_some, Bool.true_and]
      cases info with
      | none => rfl
      | some i =>
        simp only [Option.elim_some]
        rw [← convert_info_isOk i]
        cases hi : convert_equeue_info_fields i with
        | error e => simp [Except.isOk, Except.toBool]
        | ok iv =>
          simp only [Except.isOk, Except.toBool, Bool.true_and]
          cases f1 with
          | none => rfl
          | some es1 =>
            simp only [Option.elim_some]
            rw [← convertEntities_isOk load es1]
            cases h1 : convertEntities load es1 with
            | error e => simp [Except.isOk, Except.toBool]
            | ok v1 =>
              simp only [Except.isOk, Except.toBool, Bool.true_and]
              cases f2 with
              | none => rfl
              | some es2 =>
                simp only [Option.elim_some]
                rw [← convertEntities_isOk load es2]
                cases h2 : convertEntities load es2 with
                | error e => simp [Except.isOk, Except.toBool]
                | ok v2 =>
                  simp only [Except.isOk, Except.toBool, Bool.true_and]
                  cases f3 with
                  | none => rfl
                  | some es3 =>
                    simp only [Option.elim_some]
                    rw [← convertEntities_isOk load es3]
                    cases h3 : convertEntities load es3 with
                    | error e => simp [Except.isOk, Except.toBool]
                    | ok v3 =>
                      simp only [Except.isOk, Except.toBool, Bool.true_and]
                      cases f4 with
                      | none => rfl
                      | some es4 =>
                        simp only [Option.elim_some]
                        rw [← convertEntities_isOk load es4]
                        cases h4 : convertEntities load es4 with
                        | error e => simp [Except.isOk, Except.toBool]
                        | ok v4 =>
                          simp only [Except.isOk, Except.toBool, Bool.true_and]
                          cases f5 with
                          | none => rfl
                          | some es5 =>
                            simp only [Option.elim_some]
                            rw [← convertEntities_isOk load es5]
                            cases h5 : convertEntities load es5 with
                            | error e => simp [Except.isOk, Except.toBool]
                            | ok v5 =>
                              simp only [Except.isOk, Except.toBool, Bool.true_and]
                              cases f6 with
                              | none => rfl
                              | some es6 =>
                                simp only [Option.elim_some]
                                rw [← convertEntities_isOk load es6]
                                cases h6 : convertEntities load es6 with
                                | error e => simp [Except.isOk, Except.toBool]
                                | ok v6 =>
                                  simp only [Except.isOk, Except.toBool, Bool.true_and]
                                  cases f7 with
                                  | none => rfl
                                  | some es7 =>
                                    simp only [Option.elim_some]
                                    rw [← convertEntities_isOk load es7]
                                    cases h7 : convertEntities load es7 with
                                    | error e => simp [Except.isOk, Except.toBool]
                                    | ok v7 =>
                                      simp only [Except.isOk, Except.toBool, Bool.true_and]
                                      cases f8 with
                                      | none => rfl
                                      | some es8 =>
                                        simp only [Option.elim_some]
                                        rw [← convertEntities_isOk load es8]
                                        cases h8 : convertEntities load es8 with
                                        | error e => simp [Except.isOk, Except.toBool]
                                        | ok v8 =>
                                          simp only [Except.isOk, Except.toBool, Bool.true_and]
                                          cases f9 with
                                          | none => rfl
                                          | some es9 =>
                                            simp only [Option.elim_some]
                                            rw [← convertEntities_isOk load es9]
                                            cases h9 : convertEntities load es9 with
                                            | error e => simp [Except.isOk, Except.toBool]
                                            | ok v9 => simp [Except.isOk, Except.toBool]

/-! ## Query-engine frame effects (`parquet_storage.py` lines 139-159,
`queue_stats.py` read_queue closures)

Claim C9. The store root constant is left implicit: directories are keyed by
dataset name. -/

/-- On-disk state: the dataset directories that exist and the files (keyed by
the dataset they belong to) with their rows. -/
structure FS where
  dirs : List String
  files : List (String × List EntryRow)
deriving DecidableEq, Repr

/-- `read_from_parquet`: `os.makedirs(data_dir, exist_ok=True)` creates the
dataset directory when missing; the dataset is then read whole (`None` when
it has zero files). No file is created, deleted or modified. -/
def read_from_parquet_fs (fs : FS) (name : String) :
    Option (List EntryRow) × FS :=
  let fs' : FS :=
    { fs with dirs := if name ∈ fs.dirs then fs.dirs else fs.dirs ++ [name] }
  let matching := fs.files.filter fun p => decide (p.1 = name)
  (if matching.length = 0 then none
   else some (matching.flatMap fun p => p.2), fs')

/-- One parquet filter triple `(column, op, value)`. -/
structure PqFilter where
  col : String
  op : String
  value : Rat
deriving DecidableEq, Repr

/-- The filter `read_queue` of `get_waiting_time` pushes down:
`(QUEUE_POS_COLUMN, '==', 1)`. -/
def posEqOneFilter : PqFilter := ⟨"queue_pos", "==", 1⟩

/-- The filter handling of `get_waiting_time.read_queue`
(`time_range=None`): `read_filters = filters if filters is not None else []`
aliases the caller's list, and `read_filters.append(...)` then mutates it;
the result is the caller's list object after the call. `none` makes a fresh
list, leaving the caller's argument untouched. -/
def read_queue_filters_step (filters : Option (List PqFilter)) :
    List PqFilter × Option (List PqFilter) :=
  match filters with
  | none => ([posEqOneFilter], none)
  | some l => (l ++ [posEqOneFilter], some (l ++ [posEqOneFilter]))

/-- One `read_queue` call of `get_waiting_time` with its state effects: the
filters object mutates, the dataset directory is created if missing, and the
per-category frame is produced. -/
def waiting_run_step (m : RelMode)
    (acc : List WaitRow × FS × Option (List PqFilter)) (q : String) :
    List WaitRow × FS × Option (List PqFilter) :=
  let filters' := (read_queue_filters_step acc.2.2).2
  let dfFs := read_from_parquet_fs acc.2.1 q
  (acc.1 ++ get_waiting_time_queue m q (dfFs.1.getD []), dfFs.2, filters')

/-- `get_waiting_time` with its state effects: validate, then run
`read_queue` per category, threading the filesystem and the caller's filters
object. -/
def get_waiting_time_run (m : RelMode) (fs : FS)
    (filters : Option (List PqFilter)) (qnames : List String) :
    Except String (List WaitRow × FS × Option (List PqFilter)) :=
  match check_queue_names qnames with
  | .error e => .error e
  | .ok () => .ok (qnames.foldl (waiting_run_step m) ([], fs, filters))

/-- C9 counterexample: running the head-waiting-time query over two
categories on an empty store with the caller-supplied filter list
`[load_dt >= 0]` creates both dataset directories and leaves the caller's
list holding two extra pushed-down predicates — the store is changed and the
argument is modified. -/
theorem C9_query_purity_counterexample :
    get_waiting_time_run RelMode.load ⟨[], []⟩
        (some [⟨"load_dt", ">=", 0⟩]) ["carLiveQueue", "busLiveQueue"]
      = Except.ok ([], ⟨["carLiveQueue", "busLiveQueue"], []⟩,
          some [⟨"load_dt", ">=", 0⟩, posEqOneFilter, posEqOneFilter]) ∧
    (some [(⟨"load_dt", ">=", 0⟩ : PqFilter), posEqOneFilter, posEqOneFilter]
      ≠ some [⟨"load_dt", ">=", 0⟩]) ∧
    (⟨["carLiveQueue", "busLiveQueue"], []⟩ : FS) ≠ ⟨[], []⟩ := by
  decide

/-- The fold over categories: file contents are untouched, directories only
gain dataset names, and the filters object either stays `none` or gains one
pushed-down predicate per category. -/
theorem waiting_run_fold_props (m : RelMode) :
    ∀ (qs : List String) (acc : List WaitRow × FS × Option (List PqFilter)),
      ((qs.foldl (waiting_run_step m) acc).2.1.files = acc.2.1.files) ∧
      (∀ d ∈ acc.2.1.dirs, d ∈ (qs.foldl (waiting_run_step m) acc).2.1.dirs) ∧
      (∀ d ∈ (qs.foldl (waiting_run_step m) acc).2.1.dirs,
        d ∈ acc.2.1.dirs ∨ d ∈ qs) ∧
      ((qs.foldl (waiting_run_step m) acc).2.2
        = match acc.2.2 with
          | none => none
          | some l => some (l ++ List.replicate qs.length posEqOneFilter)) := by
  intro qs
  induction qs with
  | nil =>
    intro acc
    refine ⟨rfl, fun d hd => hd, fun d hd => Or.inl hd, ?_⟩
    cases hacc : acc.2.2 <;> simp [hacc]
  | cons q qs ih =>
    intro acc
    rw [List.foldl_cons]
    rcases ih (waiting_run_step m acc q) with ⟨hf, hd1, hd2, hflt⟩
    have hstepf : (waiting_run_step m acc q).2.1.files = acc.2.1.files := by
      simp [waiting_run_step, read_from_parquet_fs]
    have hstepd : (waiting_run_step m acc q).2.1.dirs
        = if q ∈ acc.2.1.dirs then acc.2.1.dirs else acc.2.1.dirs ++ [q] := by
      simp [waiting_run_step, read_from_parquet_fs]
    have hstepflt : (waiting_run_step m acc q).2.2
        = match acc.2.2 with
          | none => none
          | some l => some (l ++ [posEqOneFilter]) := by
      cases hacc : acc.2.2 <;>
        simp [waiting_run_step, read_queue_filters_step, hacc]
    refine ⟨by rw [hf, hstepf], ?_, ?_, ?_⟩
    · intro d hd
      apply hd1
      rw [hstepd]
      by_cases hq : q ∈ acc.2.1.dirs
      · simpa [hq] using hd
      · simp only [hq, if_false, List.mem_append]
        exact Or.inl hd
    · intro d hd
      rcases hd2 d hd with h | h
      · rw [hstepd] at h
        by_cases hq : q ∈ acc.2.1.dirs
        · rw [if_pos hq] at h
          exact Or.inl h
        · rw [if_neg hq] at h
          rcases List.mem_append.1 h with h | h
          · exact Or.inl h
          · exact Or.inr (List.mem_cons.2 (Or.inl (List.mem_singleton.1 h)))
      · exact Or.inr (List.mem_cons.2 (Or.inr h))
    · rw [hflt, hstepflt]
      cases acc.2.2 with
      | none => rfl
      | some l => simp [List.replicate_succ]

/-- C9 amended: the query writes no file content — on success the store's
files are unchanged and its directories grow by at most the requested dataset
directories (`os.makedirs(..., exist_ok=True)`) — and the caller's filters
argument is left untouched when absent but, when supplied, is mutated in
place into the original list followed by one pushed-down position predicate
per requested category. -/
theorem C9_query_read_only_amended (m : RelMode) (fs : FS)
    (filters : Option (List PqFilter)) (qnames : List String)
    (out : List WaitRow) (fs' : FS) (filters' : Option (List PqFilter))
    (h : get_waiting_time_run m fs filters qnames
      = Except.ok (out, fs', filters')) :
    fs'.files = fs.files ∧
    (∀ d ∈ fs.dirs, d ∈ fs'.dirs) ∧
    (∀ d ∈ fs'.dirs, d ∈ fs.dirs ∨ d ∈ qnames) ∧
    (filters = none → filters' = none) ∧
    (∀ l, filters = some l →
      filters' = some (l ++ List.replicate qnames.length posEqOneFilter)) := by
  cases hchk : check_queue_names qnames with
  | error e => rw [get_waiting_time_run, hchk] at h; cases h
  | ok u =>
    rw [get_waiting_time_run, hchk] at h
    have hres := Except.ok.inj h
    rcases waiting_run_fold_props m qnames ([], fs, filters)
      with ⟨hf, hd1, hd2, hflt⟩
    rw [hres] at hf hd1 hd2 hflt
    refine ⟨hf, hd1, hd2, ?_, ?_⟩
    · intro hnone
      rw [hnone] at hflt
      exact hflt
    · intro l hsome
      rw [hsome] at hflt
      exact hflt

/-- C9 amended witness: the two-category run of the counterexample satisfies
the amended frame conditions. -/
theorem C9_query_read_only_amended_witness :
    ((⟨["carLiveQueue", "busLiveQueue"], []⟩ : FS).files = (⟨[], []⟩ : FS).files) ∧
    (∀ d ∈ (⟨[], []⟩ : FS).dirs,
      d ∈ (⟨["carLiveQueue", "busLiveQueue"], []⟩ : FS).dirs) ∧
    (∀ d ∈ (⟨["carLiveQueue", "busLiveQueue"], []⟩ : FS).dirs,
      d ∈ (⟨[], []⟩ : FS).dirs ∨ d ∈ ["carLiveQueue", "busLiveQueue"]) ∧
    ((some [(⟨"load_dt", ">=", 0⟩ : PqFilter)]) = none →
      (some [(⟨"load_dt", ">=", 0⟩ : PqFilter), posEqOneFilter, posEqOneFilter])
        = none) ∧
    (∀ l, (some [(⟨"load_dt", ">=", 0⟩ : PqFilter)]) = some l →
      (some [(⟨"load_dt", ">=", 0⟩ : PqFilter), posEqOneFilter, posEqOneFilter])
        = some (l ++ List.replicate
            (["carLiveQueue", "busLiveQueue"] : List String).length
            posEqOneFilter)) :=
  C9_query_read_only_amended RelMode.load ⟨[], []⟩
    (some [⟨"load_dt", ">=", 0⟩]) ["carLiveQueue", "busLiveQueue"] []
    ⟨["carLiveQueue", "busLiveQueue"], []⟩
    (some [⟨"load_dt", ">=", 0⟩, posEqOneFilter, posEqOneFilter]) (by decide)

/-! ## EqueueData equality (`data_models.py`, lines 20-69)

Claim C10. Frames are embedded as a column list plus rows of cells; the
member-table comparisons can fail (mismatched columns raise `KeyError`,
mismatched row counts raise `ValueError` from `df1[cols] == df2[cols]`, a
missing `load_dt` column in an info frame raises from `sort_values`), and
`__eq__` catches every such error. -/

/-- A pandas cell: missing (`NaN`/`None`), numeric, or string. -/
inductive Cell
  | null
  | int (n : Int)
  | str (s : String)
deriving DecidableEq, Repr

/-- A pandas frame: named columns and rows of aligned cells. -/
structure DFrame where
  cols : List String
  rows : List (List Cell)
deriving DecidableEq, Repr

/-- A total order on cells (rank, then value) backing `sort_values`. -/
def cellLe (a b : Cell) : Prop :=
  match a, b with
  | .null, _ => True
  | .int _, .null => False
  | .int x, .int y => x ≤ y
  | .int _, .str _ => True
  | .str _, .null => False
  | .str _, .int _ => False
  | .str x, .str y => x ≤ y

instance : DecidableRel cellLe := fun a b => by
  unfold cellLe
  cases a <;> cases b <;> infer_instance

/-- The cell of a row under a named column (`null` when absent — only used
with present columns). -/
def cellAt (cols : List String) (row : List Cell) (c : String) : Cell :=
  match cols.indexOf? c with
  | some i => row.getD i .null
  | none => .null

/-- Row order by the `load_dt` column. -/
def dfRowLe (cols : List String) (r1 r2 : List Cell) : Prop :=
  cellLe (cellAt cols r1 ("load_dt")) (cellAt cols r2 ("load_dt"))

instance {cols : List String} : DecidableRel (dfRowLe cols) := fun a b => by
  unfold dfRowLe; infer_instance

/-- `df.sort_values(LOAD_DATE_COLUMN).reset_index(drop=True)` guarded by
`if LOAD_DATE_COLUMN in df` (`_check_dfs`). -/
def sortIfLoad (df : DFrame) : DFrame :=
  if ("load_dt") ∈ df.cols then
    { df with rows := df.rows.insertionSort (dfRowLe df.cols) }
  else df

/-- The same sort unguarded (`_check_infos`): a frame without `load_dt`
raises `KeyError`. -/
def sortByLoadStrict (df : DFrame) : Except String DFrame :=
  if ("load_dt") ∈ df.cols then
    .ok { df with rows := df.rows.insertionSort (dfRowLe df.cols) }
  else .error ("KeyError")

/-- Project a row onto a target column list. -/
def projRow (cols targetCols : List String) (row : List Cell) : List Cell :=
  targetCols.map fun c => cellAt cols row c

/-- String order for sorted column comparison. -/
def strLe (a b : String) : Prop := a ≤ b

instance : DecidableRel strLe := fun a b => by
  unfold strLe; infer_instance

/-- `pandas.isna` of a cell. -/
def cellIsNa (c : Cell) : Bool :=
  match c with
  | .null => true
  | _ => false

/-- Aligned comparison of two projected rows: `isna` masks agree and
non-missing values agree (`(df1 == df2)[~isna]`). -/
def rowsAgree (r1 r2 : List Cell) : Bool :=
  (r1.zip r2).all fun p =>
    cellIsNa p.1 == cellIsNa p.2 && (cellIsNa p.1 || p.1 == p.2)

/-- `EqueueData._check_dfs`: both operands must be frames (else the result is
`df1 is None and df2 is None`); each is sorted by `load_dt` when present;
`df1[cols] == df2[cols]` raises when `df2` misses a column of `df1` or the
row counts differ; otherwise the verdict is: equal sorted column sets, equal
shapes, aligned `isna` masks and equal non-missing values. -/
def check_dfs (df1 df2 : Option DFrame) : Except String Bool :=
  match df1, df2 with
  | some d1, some d2 =>
    let d1 := sortIfLoad d1
    let d2 := sortIfLoad d2
    let cols := d1.cols
    if ¬ (cols.all fun c => d2.cols.contains c) then .error ("KeyError")
    else if d1.rows.length ≠ d2.rows.length then .error ("ValueError")
    else
      .ok (decide (cols.insertionSort strLe = d2.cols.insertionSort strLe) &&
        decide (d1.cols.length = d2.cols.length) &&
        ((d1.rows.zip d2.rows).all fun p =>
          rowsAgree (projRow d1.cols cols p.1) (projRow d2.cols cols p.2)))
  | none, none => .ok true
  | _, _ => .ok false

/-- `Index.difference`: drop the named columns, remaining columns sorted. -/
def dropCols (df : DFrame) (drop : List String) : DFrame :=
  let keep := (df.cols.filter fun c => ¬ drop.contains c).insertionSort strLe
  ⟨keep, df.rows.map (projRow df.cols keep)⟩

/-- `EqueueData._check_infos`: non-frame operands give `false`; otherwise
both are sorted by `load_dt` (raising when the column is missing) and
compared by `_check_dfs` with `load_dt`, `year`, `month` excluded. -/
def check_infos (i1 i2 : Option DFrame) : Except String Bool :=
  match i1, i2 with
  | some d1, some d2 =>
    match sortByLoadStrict d1 with
    | .error e => .error e
    | .ok d1s =>
      match sortByLoadStrict d2 with
      | .error e => .error e
      | .ok d2s =>
        check_dfs (some (dropCols d1s ["load_dt", "year", "month"]))
          (some (dropCols d2s ["load_dt", "year", "month"]))
  | _, _ => .ok false

/-- Python's short-circuiting `and` over fallible boolean checks: a `False`
stops the chain, an exception propagates. -/
def pyAnd (a : Except String Bool) (b : Unit → Except String Bool) :
    Except String Bool :=
  match a with
  | .error e => .error e
  | .ok false => .ok false
  | .ok true => b ()

/-- The `EqueueData` member frames (`info` may in general be a `Series`,
modelled as a one-row frame). -/
structure EqueueDataM where
  info : Option DFrame
  truck_queue : Option DFrame
  truck_priority : Option DFrame
  truck_gpk : Option DFrame
  bus_queue : Option DFrame
  bus_priority : Option DFrame
  car_queue : Option DFrame
  car_priority : Option DFrame
  motorcycle_queue : Option DFrame
  motorcycle_priority : Option DFrame
deriving DecidableEq, Repr

/-- The `and`-chain inside the `try` of `EqueueData.__eq__`. -/
def equeue_checkAll (a b : EqueueDataM) : Except String Bool :=
  pyAnd (check_infos a.info b.info) fun _ =>
  pyAnd (check_dfs a.truck_queue b.truck_queue) fun _ =>
  pyAnd (check_dfs a.truck_priority b.truck_priority) fun _ =>
  pyAnd (check_dfs a.truck_gpk b.truck_gpk) fun _ =>
  pyAnd (check_dfs a.bus_queue b.bus_queue) fun _ =>
  pyAnd (check_dfs a.bus_priority b.bus_priority) fun _ =>
  pyAnd (check_dfs a.car_queue b.car_queue) fun _ =>
  pyAnd (check_dfs a.car_priority b.car_priority) fun _ =>
  pyAnd (check_dfs a.motorcycle_queue b.motorcycle_queue) fun _ =>
  check_dfs a.motorcycle_priority b.motorcycle_priority

/-- `EqueueData.__eq__`: the checks run inside `try`; any raised error is
caught and the comparison evaluates to `False`; the verdict is converted to a
plain boolean (`True if are_all_passed else False`). -/
def equeue_eq (a b : EqueueDataM) : Bool :=
  match equeue_checkAll a b with
  | .ok v => v
  | .error _ => false

/-- C10: the equality comparison is total — it always produces a plain
boolean, returning exactly the verdict of the member-table checks when they
run to completion and `false` whenever any member comparison raises. -/
theorem C10_equeue_eq_total (a b : EqueueDataM) :
    (∀ v, equeue_checkAll a b = Except.ok v → equeue_eq a b = v) ∧
    (∀ e, equeue_checkAll a b = Except.error e → equeue_eq a b = false) := by
  constructor <;> intro x h <;> simp [equeue_eq, h]

/-- C10 witness: two concrete values whose truck frames have mismatched
columns make the member comparison raise, and the equality evaluates to
`false` instead of propagating the error. -/
theorem C10_equeue_eq_total_witness :
    equeue_checkAll
        ⟨some ⟨["load_dt", "id"], [[Cell.int 0, Cell.str ("a")]]⟩,
         some ⟨["x"], [[Cell.int 1]]⟩,
         none, none, none, none, none, none, none, none⟩
        ⟨some ⟨["load_dt", "id"], [[Cell.int 0, Cell.str ("a")]]⟩,
         some ⟨["y"], [[Cell.int 2]]⟩,
         none, none, none, none, none, none, none, none⟩
      = Except.error ("KeyError") ∧
    equeue_eq
        ⟨some ⟨["load_dt", "id"], [[Cell.int 0, Cell.str ("a")]]⟩,
         some ⟨["x"], [[Cell.int 1]]⟩,
         none, none, none, none, none, none, none, none⟩
        ⟨some ⟨["load_dt", "id"], [[Cell.int 0, Cell.str ("a")]]⟩,
         some ⟨["y"], [[Cell.int 2]]⟩,
         none, none, none, none, none, none, none, none⟩
      = false :=
  ⟨by decide,
   (C10_equeue_eq_total
      ⟨some ⟨["load_dt", "id"], [[Cell.int 0, Cell.str ("a")]]⟩,
       some ⟨["x"], [[Cell.int 1]]⟩,
       none, none, none, none, none, none, none, none⟩
      ⟨some ⟨["load_dt", "id"], [[Cell.int 0, Cell.str ("a")]]⟩,
       some ⟨["y"], [[Cell.int 2]]⟩,
       none, none, none, none, none, none, none, none⟩).2
     ("KeyError") (by decide)⟩

end BorderEqueue
